import Mathlib

/-!
Verification of the pybrlapi BrlAPI client against its specification.

The definitions below are a shallow embedding of the Python sources:
`pybrlapi/__init__.py` (the `Client` state machine), `pybrlapi/protocol.py`
(packet codec), `pybrlapi/blocker.py` (the `Blocker` gate),
`pybrlapi/keycodes.py` (keycode decoder and tables) and
`pybrlapi/constants.py`.  Bytes are modelled as `Nat` values below 256,
byte strings as `List Nat`, Python's unbounded non-negative ints as `Nat`,
and Python exceptions as explicit result constructors.
-/

/-! ## Constants (`pybrlapi/constants.py`) -/

def MAX_PACKET_SIZE : Nat := 4096

def PROTOCOL_VERSION : Nat := 8

def PACKET_VERSION : Nat := 118
def PACKET_AUTH : Nat := 97
def PACKET_GETDRIVERNAME : Nat := 110
def PACKET_GETMODELID : Nat := 100
def PACKET_GETDISPLAYSIZE : Nat := 115
def PACKET_ENTERTTYMODE : Nat := 116
def PACKET_LEAVETTYMODE : Nat := 76
def PACKET_KEY : Nat := 107
def PACKET_WRITE : Nat := 119
def PACKET_ACK : Nat := 65
def PACKET_ERROR : Nat := 101
def PACKET_EXCEPTION : Nat := 69

def AUTH_NONE : Nat := 78
def AUTH_KEY : Nat := 75
def AUTH_CRED : Nat := 67

def WF_DISPLAYNUMBER : Nat := 0x01
def WF_REGION : Nat := 0x02
def WF_TEXT : Nat := 0x04
def WF_ATTR_AND : Nat := 0x08
def WF_ATTR_OR : Nat := 0x10
def WF_CURSOR : Nat := 0x20
def WF_CHARSET : Nat := 0x40

/-! ## Byte-level helpers

`be32 n` is `struct.pack("!I", n)`: the 4-byte big-endian encoding of a
32-bit unsigned integer.  `readBE32` is `struct.unpack("!I", b[:4])[0]`,
defined only when at least 4 bytes are present (otherwise `unpack`
raises `struct.error`).  `padTrunc n s` is the behaviour of the struct
format `"ns"`: the bytes are truncated or padded with NUL bytes to
exactly `n` bytes.
-/

def be32 (n : Nat) : List Nat :=
  [n / 16777216 % 256, n / 65536 % 256, n / 256 % 256, n % 256]

def readBE32 (b : List Nat) : Option Nat :=
  match b with
  | b0 :: b1 :: b2 :: b3 :: _ => some (((b0 * 256 + b1) * 256 + b2) * 256 + b3)
  | _ => none

def padTrunc (n : Nat) (s : List Nat) : List Nat :=
  s.take n ++ List.replicate (n - s.length) 0

/-! ## The deframer: `Client.process_buffer`

```python
def process_buffer (self):
    b = self.in_buffer
    try:
        size = unpack("!I", b[:4])[0]+8
    except:
        self.close()
        e = BrlAPIError("Probably not brltty on the other side")
        self.error_callback(e)
        raise e
    if size>MAX_PACKET_SIZE:
        self.close()
        e = BrlAPIError("Header indicates packet size bigger than MAX_PACKET_SIZE, ...")
        self.error_callback(e)
        raise e
    l = len(b)
    if l<size:
        # Wait for whole packet to arrive
        return
    # Take a packet out of the buffer
    self.in_buffer = b[size:]
    return b[:size]
```

`DeframeStep.protoError msg` models the two exceptional paths: the socket
is closed via `self.close()`, a `BrlAPIError msg` is reported to the
error callback, and the same error is raised out of `process_buffer`.
`DeframeStep.needMore` models `return None` with the buffer left intact.
`DeframeStep.frame pkt rest` models returning `b[:size]` with the buffer
set to `b[size:]`.  Note that `unpack("!I", b[:4])` raises `struct.error`
whenever fewer than 4 bytes are buffered, which the bare `except:` maps
to the "Probably not brltty" termination path.
-/

inductive DeframeStep where
  | protoError (msg : String)
  | needMore
  | frame (pkt rest : List Nat)
deriving DecidableEq

def process_buffer (b : List Nat) : DeframeStep :=
  match readBE32 b with
  | none => .protoError "Probably not brltty on the other side"
  | some declared =>
    let size := declared + 8
    if size > MAX_PACKET_SIZE then
      .protoError "Header indicates packet size bigger than MAX_PACKET_SIZE, this is not brltty talking for sure"
    else if b.length < size then
      .needMore
    else
      .frame (b.take size) (b.drop size)

/-- **C4.** The claim states that the deframer is streaming-safe and in
particular that whenever fewer than 8 bytes are buffered it signals
need-more, returning without a frame and without error.  This is false:
when the buffer holds 1 to 3 bytes (for instance the first two bytes
`0x00 0x00` of a perfectly well-formed frame that was split by TCP),
`unpack("!I", b[:4])` raises `struct.error`, the bare `except:` closes
the socket and raises `BrlAPIError("Probably not brltty on the other
side")` instead of waiting for the rest of the frame.  The theorem
evaluates the code at this failing input: the result is the termination
path, not `needMore`. -/
theorem c4_deframer_not_streaming_safe :
    process_buffer [0x00, 0x00] = .protoError "Probably not brltty on the other side" ∧
    process_buffer [0x00, 0x00] ≠ .needMore := by
  constructor
  · rfl
  · decide

/-- **C7.** Oversized-frame rejection: for every buffered frame whose
declared payload size plus the 8-byte header exceeds `MAX_PACKET_SIZE`
(4096), `process_buffer` takes the termination path (socket closed, a
`BrlAPIError` reported to the error callback and raised) and never
returns a frame — in particular no parsing of the frame takes place,
even when the whole oversized frame is already buffered. -/
theorem c7_oversized_frame_rejected (b0 b1 b2 b3 : Nat) (rest : List Nat)
    (hover : ((b0 * 256 + b1) * 256 + b2) * 256 + b3 + 8 > MAX_PACKET_SIZE) :
    process_buffer (b0 :: b1 :: b2 :: b3 :: rest) =
      .protoError "Header indicates packet size bigger than MAX_PACKET_SIZE, this is not brltty talking for sure" := by
  simp only [process_buffer, readBE32]
  rw [if_pos hover]

/-- Witness for C7 at a concrete input: a frame declaring a 4096-byte
payload (total 4104 > 4096) is rejected even though fully buffered. -/
theorem c7_oversized_frame_rejected_witness :
    process_buffer (0x00 :: 0x00 :: 0x10 :: 0x00 :: List.replicate 4100 0) =
      .protoError "Header indicates packet size bigger than MAX_PACKET_SIZE, this is not brltty talking for sure" :=
  c7_oversized_frame_rejected 0x00 0x00 0x10 0x00 (List.replicate 4100 0) (by decide)

/-! ## Keycode masks (`pybrlapi/keycodes.py`) -/

def KEY_MAX : Nat := 0xFFFFFFFFFFFFFFFF
def KEY_FLAGS_MASK : Nat := 0xFFFFFFFF00000000
def KEY_FLAGS_SHIFT : Nat := 32
def KEY_TYPE_MASK : Nat := 0x00000000E0000000
def KEY_TYPE_CMD : Nat := 0x0000000020000000
def KEY_TYPE_SYM : Nat := 0x0000000000000000
def KEY_CODE_MASK : Nat := 0x000000001FFFFFFF
def KEY_CMD_BLK_MASK : Nat := 0x1FFF0000
def KEY_CMD_BLK_SHIFT : Nat := 16
def KEY_CMD_ARG_MASK : Nat := 0x0000FFFF
def KEY_SYM_UNICODE : Nat := 0x01000000

/-! ## `getArgumentWidth` and `expandKeyCode` (`keycodes.py`)

```python
def getArgumentWidth (keyCode):
    if (keyCode & KEY_TYPE_MASK) == KEY_TYPE_CMD:
        return 16
    elif (keyCode & KEY_TYPE_MASK) == KEY_TYPE_SYM:
        if keyCode & KEY_SYM_UNICODE:
            return 24
        else:
            return 8
    return -1

def expandKeyCode (keyCode):
    argumentWidth = getArgumentWidth(keyCode)
    if argumentWidth == -1:
        return None
    argumentMask = (1 << argumentWidth) - 1
    type_val = keyCode & KEY_TYPE_MASK
    code = keyCode & KEY_CODE_MASK
    ekc = {
        "type": type_val,
        "command": code & ~argumentMask,
        "argument": code & argumentMask,
        "flags": (keyCode & KEY_FLAGS_MASK) >> KEY_FLAGS_SHIFT,
    }
    return ekc
```

Python's `code & ~argumentMask` on the non-negative `code` clears the
argument bits; since `code ≤ KEY_CODE_MASK < 2^64`, it is modelled
exactly by `code &&& (KEY_MAX ^^^ argumentMask)`.
-/

def getArgumentWidth (keyCode : Nat) : Int :=
  if keyCode &&& KEY_TYPE_MASK = KEY_TYPE_CMD then 16
  else if keyCode &&& KEY_TYPE_MASK = KEY_TYPE_SYM then
    if keyCode &&& KEY_SYM_UNICODE ≠ 0 then 24 else 8
  else -1

structure EKC where
  type : Nat
  command : Nat
  argument : Nat
  flags : Nat
deriving DecidableEq

def expandKeyCode (keyCode : Nat) : Option EKC :=
  let argumentWidth := getArgumentWidth keyCode
  if argumentWidth = -1 then none
  else
    let argumentMask : Nat := (1 <<< argumentWidth.toNat) - 1
    let type_val := keyCode &&& KEY_TYPE_MASK
    let code := keyCode &&& KEY_CODE_MASK
    some { type := type_val
           command := code &&& (KEY_MAX ^^^ argumentMask)
           argument := code &&& argumentMask
           flags := (keyCode &&& KEY_FLAGS_MASK) >>> KEY_FLAGS_SHIFT }

/-! Generic bit lemmas used for the key-expand roundtrip. -/

theorem lor_of_land_masks (k a b : Nat) :
    (k &&& a) ||| (k &&& b) = k &&& (a ||| b) :=
  (Nat.and_or_distrib_left k a b).symm

theorem land_all_ones {k : Nat} (hk : k < 2 ^ 64) :
    k &&& 0xFFFFFFFFFFFFFFFF = k := by
  have h : (0xFFFFFFFFFFFFFFFF : Nat) = 2 ^ 64 - 1 := by norm_num
  rw [h, Nat.and_pow_two_sub_one_eq_mod, Nat.mod_eq_of_lt hk]

theorem high_slice_shift (k : Nat) :
    ((k &&& 0xFFFFFFFF00000000) >>> 32) <<< 32 = k &&& 0xFFFFFFFF00000000 := by
  have hx : (k &&& 0xFFFFFFFF00000000) % 2 ^ 32 = 0 := by
    have h1 : (k &&& 0xFFFFFFFF00000000) % 2 ^ 32 =
        (k &&& 0xFFFFFFFF00000000) &&& (2 ^ 32 - 1) :=
      (Nat.and_pow_two_sub_one_eq_mod _ 32).symm
    have h2 : ((0xFFFFFFFF00000000 : Nat) &&& (2 ^ 32 - 1)) = 0 := by decide
    rw [h1, Nat.and_assoc, h2, Nat.and_zero]
  rw [Nat.shiftRight_eq_div_pow, Nat.shiftLeft_eq]
  exact Nat.div_mul_cancel (Nat.dvd_of_mod_eq_zero hx)

/-- **C5 counterexample.** The claim asserts that `expandKeyCode(k)`
succeeds for *every* 64-bit integer `k`.  It does not: the type field
(bits 31–29) admits eight values, and `getArgumentWidth` returns `-1`
for the six that are neither `KEY_TYPE_CMD` (`0x20000000`) nor
`KEY_TYPE_SYM` (`0`), making `expandKeyCode` return `None`.  Concretely
`k = 0x40000000` fails. -/
theorem c5_expand_not_total :
    expandKeyCode 0x40000000 = none := by decide

/-- **C5 (amended).** For every 64-bit `k` whose type field is
`KEY_TYPE_CMD` or `KEY_TYPE_SYM`, `expandKeyCode k` succeeds and
recombining its parts as `type ||| command ||| argument ||| (flags <<< 32)`
yields `k` again (for all other `k` it returns `None`, per
`c5_expand_not_total`). -/
theorem c5_expand_roundtrip (k : Nat) (hk : k < 2 ^ 64)
    (hty : k &&& KEY_TYPE_MASK = KEY_TYPE_CMD ∨ k &&& KEY_TYPE_MASK = KEY_TYPE_SYM) :
    ∃ e, expandKeyCode k = some e ∧
      e.type ||| e.command ||| e.argument ||| (e.flags <<< 32) = k := by
  rcases hty with hty | hty
  · -- braille command: 16-bit argument
    have h1 : getArgumentWidth k = 16 := by
      unfold getArgumentWidth
      rw [hty]
      simp
    have hexp : expandKeyCode k = some ⟨k &&& KEY_TYPE_MASK,
        (k &&& KEY_CODE_MASK) &&& (KEY_MAX ^^^ 0xFFFF),
        (k &&& KEY_CODE_MASK) &&& 0xFFFF,
        (k &&& KEY_FLAGS_MASK) >>> KEY_FLAGS_SHIFT⟩ := by
      simp only [expandKeyCode, h1]
      rfl
    refine ⟨_, hexp, ?_⟩
    have hm1 : ((KEY_CODE_MASK : Nat) &&& (KEY_MAX ^^^ 0xFFFF)) = 0x1FFF0000 := by decide
    have hm2 : ((KEY_CODE_MASK : Nat) &&& 0xFFFF) = 0xFFFF := by decide
    show (k &&& KEY_TYPE_MASK) ||| ((k &&& KEY_CODE_MASK) &&& (KEY_MAX ^^^ 0xFFFF)) |||
        ((k &&& KEY_CODE_MASK) &&& 0xFFFF) |||
        (((k &&& KEY_FLAGS_MASK) >>> KEY_FLAGS_SHIFT) <<< 32) = k
    rw [Nat.and_assoc, Nat.and_assoc, hm1, hm2,
      show (KEY_FLAGS_MASK : Nat) = 0xFFFFFFFF00000000 from rfl,
      show (KEY_FLAGS_SHIFT : Nat) = 32 from rfl, high_slice_shift,
      show (KEY_TYPE_MASK : Nat) = 0xE0000000 from rfl,
      lor_of_land_masks, lor_of_land_masks, lor_of_land_masks,
      show ((0xE0000000 ||| 0x1FFF0000 ||| 0xFFFF ||| 0xFFFFFFFF00000000 : Nat)) =
        0xFFFFFFFFFFFFFFFF by decide]
    exact land_all_ones hk
  · by_cases hu : k &&& KEY_SYM_UNICODE = 0
    · -- X keysym, not Unicode: 8-bit argument
      have h1 : getArgumentWidth k = 8 := by
        unfold getArgumentWidth
        rw [hty]
        rw [if_neg (by decide), if_pos rfl, if_neg (by simp [hu])]
      have hexp : expandKeyCode k = some ⟨k &&& KEY_TYPE_MASK,
          (k &&& KEY_CODE_MASK) &&& (KEY_MAX ^^^ 0xFF),
          (k &&& KEY_CODE_MASK) &&& 0xFF,
          (k &&& KEY_FLAGS_MASK) >>> KEY_FLAGS_SHIFT⟩ := by
        simp only [expandKeyCode, h1]
        rfl
      refine ⟨_, hexp, ?_⟩
      have hm1 : ((KEY_CODE_MASK : Nat) &&& (KEY_MAX ^^^ 0xFF)) = 0x1FFFFF00 := by decide
      have hm2 : ((KEY_CODE_MASK : Nat) &&& 0xFF) = 0xFF := by decide
      show (k &&& KEY_TYPE_MASK) ||| ((k &&& KEY_CODE_MASK) &&& (KEY_MAX ^^^ 0xFF)) |||
          ((k &&& KEY_CODE_MASK) &&& 0xFF) |||
          (((k &&& KEY_FLAGS_MASK) >>> KEY_FLAGS_SHIFT) <<< 32) = k
      rw [Nat.and_assoc, Nat.and_assoc, hm1, hm2,
        show (KEY_FLAGS_MASK : Nat) = 0xFFFFFFFF00000000 from rfl,
        show (KEY_FLAGS_SHIFT : Nat) = 32 from rfl, high_slice_shift,
        show (KEY_TYPE_MASK : Nat) = 0xE0000000 from rfl,
        lor_of_land_masks, lor_of_land_masks, lor_of_land_masks,
        show ((0xE0000000 ||| 0x1FFFFF00 ||| 0xFF ||| 0xFFFFFFFF00000000 : Nat)) =
          0xFFFFFFFFFFFFFFFF by decide]
      exact land_all_ones hk
    · -- Unicode keysym: 24-bit argument
      have h1 : getArgumentWidth k = 24 := by
        unfold getArgumentWidth
        rw [hty]
        rw [if_neg (by decide), if_pos rfl, if_pos hu]
      have hexp : expandKeyCode k = some ⟨k &&& KEY_TYPE_MASK,
          (k &&& KEY_CODE_MASK) &&& (KEY_MAX ^^^ 0xFFFFFF),
          (k &&& KEY_CODE_MASK) &&& 0xFFFFFF,
          (k &&& KEY_FLAGS_MASK) >>> KEY_FLAGS_SHIFT⟩ := by
        simp only [expandKeyCode, h1]
        rfl
      refine ⟨_, hexp, ?_⟩
      have hm1 : ((KEY_CODE_MASK : Nat) &&& (KEY_MAX ^^^ 0xFFFFFF)) = 0x1F000000 := by decide
      have hm2 : ((KEY_CODE_MASK : Nat) &&& 0xFFFFFF) = 0xFFFFFF := by decide
      show (k &&& KEY_TYPE_MASK) ||| ((k &&& KEY_CODE_MASK) &&& (KEY_MAX ^^^ 0xFFFFFF)) |||
          ((k &&& KEY_CODE_MASK) &&& 0xFFFFFF) |||
          (((k &&& KEY_FLAGS_MASK) >>> KEY_FLAGS_SHIFT) <<< 32) = k
      rw [Nat.and_assoc, Nat.and_assoc, hm1, hm2,
        show (KEY_FLAGS_MASK : Nat) = 0xFFFFFFFF00000000 from rfl,
        show (KEY_FLAGS_SHIFT : Nat) = 32 from rfl, high_slice_shift,
        show (KEY_TYPE_MASK : Nat) = 0xE0000000 from rfl,
        lor_of_land_masks, lor_of_land_masks, lor_of_land_masks,
        show ((0xE0000000 ||| 0x1F000000 ||| 0xFFFFFF ||| 0xFFFFFFFF00000000 : Nat)) =
          0xFFFFFFFFFFFFFFFF by decide]
      exact land_all_ones hk

/-- Witness for the amended C5 at the concrete key code
`0x0000000120010008` (a `ROUTE` command with argument 8 and flag bit 0
set): expansion succeeds and recombination yields the key code back. -/
theorem c5_expand_roundtrip_witness :
    ∃ e, expandKeyCode 0x0000000120010008 = some e ∧
      e.type ||| e.command ||| e.argument ||| (e.flags <<< 32) = 0x0000000120010008 :=
  c5_expand_roundtrip 0x0000000120010008 (by decide) (Or.inl (by decide))

/-! ## Keycode constants and `KEY_TABLE` (`pybrlapi/keycodes.py`)

The braille-command and keysym constants, and the name table, are
transcribed from the source.  Python builds `KEY_TABLE` as a dict
literal, so for duplicate keys (e.g. `KEY_CMD_CLIP_NEW` and
`KEY_CMD_CUTBEGIN` share value `2 << 16`) the *later* binding wins;
`dictGet` below searches with exactly that last-binding-wins rule.
-/

def KEY_SYM_BACKSPACE : Nat := 0x0000FF08
def KEY_SYM_TAB : Nat := 0x0000FF09
def KEY_SYM_LINEFEED : Nat := 0x0000FF0D
def KEY_SYM_ESCAPE : Nat := 0x0000FF1B
def KEY_SYM_HOME : Nat := 0x0000FF50
def KEY_SYM_LEFT : Nat := 0x0000FF51
def KEY_SYM_UP : Nat := 0x0000FF52
def KEY_SYM_RIGHT : Nat := 0x0000FF53
def KEY_SYM_DOWN : Nat := 0x0000FF54
def KEY_SYM_PAGE_UP : Nat := 0x0000FF55
def KEY_SYM_PAGE_DOWN : Nat := 0x0000FF56
def KEY_SYM_END : Nat := 0x0000FF57
def KEY_SYM_INSERT : Nat := 0x0000FF63
def KEY_SYM_FUNCTION : Nat := 0x0000FFBE
def KEY_SYM_DELETE : Nat := 0x0000FFFF

def KEY_CMD_NOOP : Nat := (0 <<< KEY_CMD_BLK_SHIFT) + 0
def KEY_CMD_LNUP : Nat := (0 <<< KEY_CMD_BLK_SHIFT) + 1
def KEY_CMD_LNDN : Nat := (0 <<< KEY_CMD_BLK_SHIFT) + 2
def KEY_CMD_WINUP : Nat := (0 <<< KEY_CMD_BLK_SHIFT) + 3
def KEY_CMD_WINDN : Nat := (0 <<< KEY_CMD_BLK_SHIFT) + 4
def KEY_CMD_PRDIFLN : Nat := (0 <<< KEY_CMD_BLK_SHIFT) + 5
def KEY_CMD_NXDIFLN : Nat := (0 <<< KEY_CMD_BLK_SHIFT) + 6
def KEY_CMD_ATTRUP : Nat := (0 <<< KEY_CMD_BLK_SHIFT) + 7
def KEY_CMD_ATTRDN : Nat := (0 <<< KEY_CMD_BLK_SHIFT) + 8
def KEY_CMD_TOP : Nat := (0 <<< KEY_CMD_BLK_SHIFT) + 9
def KEY_CMD_BOT : Nat := (0 <<< KEY_CMD_BLK_SHIFT) + 10
def KEY_CMD_TOP_LEFT : Nat := (0 <<< KEY_CMD_BLK_SHIFT) + 11
def KEY_CMD_BOT_LEFT : Nat := (0 <<< KEY_CMD_BLK_SHIFT) + 12
def KEY_CMD_PRPGRPH : Nat := (0 <<< KEY_CMD_BLK_SHIFT) + 13
def KEY_CMD_NXPGRPH : Nat := (0 <<< KEY_CMD_BLK_SHIFT) + 14
def KEY_CMD_PRPROMPT : Nat := (0 <<< KEY_CMD_BLK_SHIFT) + 15
def KEY_CMD_NXPROMPT : Nat := (0 <<< KEY_CMD_BLK_SHIFT) + 16
def KEY_CMD_PRSEARCH : Nat := (0 <<< KEY_CMD_BLK_SHIFT) + 17
def KEY_CMD_NXSEARCH : Nat := (0 <<< KEY_CMD_BLK_SHIFT) + 18
def KEY_CMD_CHRLT : Nat := (0 <<< KEY_CMD_BLK_SHIFT) + 19
def KEY_CMD_CHRRT : Nat := (0 <<< KEY_CMD_BLK_SHIFT) + 20
def KEY_CMD_HWINLT : Nat := (0 <<< KEY_CMD_BLK_SHIFT) + 21
def KEY_CMD_HWINRT : Nat := (0 <<< KEY_CMD_BLK_SHIFT) + 22
def KEY_CMD_FWINLT : Nat := (0 <<< KEY_CMD_BLK_SHIFT) + 23
def KEY_CMD_FWINRT : Nat := (0 <<< KEY_CMD_BLK_SHIFT) + 24
def KEY_CMD_FWINLTSKIP : Nat := (0 <<< KEY_CMD_BLK_SHIFT) + 25
def KEY_CMD_FWINRTSKIP : Nat := (0 <<< KEY_CMD_BLK_SHIFT) + 26
def KEY_CMD_LNBEG : Nat := (0 <<< KEY_CMD_BLK_SHIFT) + 27
def KEY_CMD_LNEND : Nat := (0 <<< KEY_CMD_BLK_SHIFT) + 28
def KEY_CMD_HOME : Nat := (0 <<< KEY_CMD_BLK_SHIFT) + 29
def KEY_CMD_BACK : Nat := (0 <<< KEY_CMD_BLK_SHIFT) + 30
def KEY_CMD_RETURN : Nat := (0 <<< KEY_CMD_BLK_SHIFT) + 31
def KEY_CMD_FREEZE : Nat := (0 <<< KEY_CMD_BLK_SHIFT) + 32
def KEY_CMD_DISPMD : Nat := (0 <<< KEY_CMD_BLK_SHIFT) + 33
def KEY_CMD_SIXDOTS : Nat := (0 <<< KEY_CMD_BLK_SHIFT) + 34
def KEY_CMD_SLIDEWIN : Nat := (0 <<< KEY_CMD_BLK_SHIFT) + 35
def KEY_CMD_SKPIDLNS : Nat := (0 <<< KEY_CMD_BLK_SHIFT) + 36
def KEY_CMD_SKPBLNKWINS : Nat := (0 <<< KEY_CMD_BLK_SHIFT) + 37
def KEY_CMD_CSRVIS : Nat := (0 <<< KEY_CMD_BLK_SHIFT) + 38
def KEY_CMD_CSRHIDE : Nat := (0 <<< KEY_CMD_BLK_SHIFT) + 39
def KEY_CMD_CSRTRK : Nat := (0 <<< KEY_CMD_BLK_SHIFT) + 40
def KEY_CMD_CSRSIZE : Nat := (0 <<< KEY_CMD_BLK_SHIFT) + 41
def KEY_CMD_CSRBLINK : Nat := (0 <<< KEY_CMD_BLK_SHIFT) + 42
def KEY_CMD_ATTRVIS : Nat := (0 <<< KEY_CMD_BLK_SHIFT) + 43
def KEY_CMD_ATTRBLINK : Nat := (0 <<< KEY_CMD_BLK_SHIFT) + 44
def KEY_CMD_CAPBLINK : Nat := (0 <<< KEY_CMD_BLK_SHIFT) + 45
def KEY_CMD_TUNES : Nat := (0 <<< KEY_CMD_BLK_SHIFT) + 46
def KEY_CMD_AUTOREPEAT : Nat := (0 <<< KEY_CMD_BLK_SHIFT) + 47
def KEY_CMD_AUTOSPEAK : Nat := (0 <<< KEY_CMD_BLK_SHIFT) + 48
def KEY_CMD_HELP : Nat := (0 <<< KEY_CMD_BLK_SHIFT) + 49
def KEY_CMD_INFO : Nat := (0 <<< KEY_CMD_BLK_SHIFT) + 50
def KEY_CMD_LEARN : Nat := (0 <<< KEY_CMD_BLK_SHIFT) + 51
def KEY_CMD_PREFMENU : Nat := (0 <<< KEY_CMD_BLK_SHIFT) + 52
def KEY_CMD_PREFSAVE : Nat := (0 <<< KEY_CMD_BLK_SHIFT) + 53
def KEY_CMD_PREFLOAD : Nat := (0 <<< KEY_CMD_BLK_SHIFT) + 54
def KEY_CMD_MENU_FIRST_ITEM : Nat := (0 <<< KEY_CMD_BLK_SHIFT) + 55
def KEY_CMD_MENU_LAST_ITEM : Nat := (0 <<< KEY_CMD_BLK_SHIFT) + 56
def KEY_CMD_MENU_PREV_ITEM : Nat := (0 <<< KEY_CMD_BLK_SHIFT) + 57
def KEY_CMD_MENU_NEXT_ITEM : Nat := (0 <<< KEY_CMD_BLK_SHIFT) + 58
def KEY_CMD_MENU_PREV_SETTING : Nat := (0 <<< KEY_CMD_BLK_SHIFT) + 59
def KEY_CMD_MENU_NEXT_SETTING : Nat := (0 <<< KEY_CMD_BLK_SHIFT) + 60
def KEY_CMD_MUTE : Nat := (0 <<< KEY_CMD_BLK_SHIFT) + 61
def KEY_CMD_SPKHOME : Nat := (0 <<< KEY_CMD_BLK_SHIFT) + 62
def KEY_CMD_SAY_LINE : Nat := (0 <<< KEY_CMD_BLK_SHIFT) + 63
def KEY_CMD_SAY_ABOVE : Nat := (0 <<< KEY_CMD_BLK_SHIFT) + 64
def KEY_CMD_SAY_BELOW : Nat := (0 <<< KEY_CMD_BLK_SHIFT) + 65
def KEY_CMD_SAY_SLOWER : Nat := (0 <<< KEY_CMD_BLK_SHIFT) + 66
def KEY_CMD_SAY_FASTER : Nat := (0 <<< KEY_CMD_BLK_SHIFT) + 67
def KEY_CMD_SAY_SOFTER : Nat := (0 <<< KEY_CMD_BLK_SHIFT) + 68
def KEY_CMD_SAY_LOUDER : Nat := (0 <<< KEY_CMD_BLK_SHIFT) + 69
def KEY_CMD_SWITCHVT_PREV : Nat := (0 <<< KEY_CMD_BLK_SHIFT) + 70
def KEY_CMD_SWITCHVT_NEXT : Nat := (0 <<< KEY_CMD_BLK_SHIFT) + 71
def KEY_CMD_CSRJMP_VERT : Nat := (0 <<< KEY_CMD_BLK_SHIFT) + 72
def KEY_CMD_PASTE : Nat := (0 <<< KEY_CMD_BLK_SHIFT) + 73
def KEY_CMD_RESTARTBRL : Nat := (0 <<< KEY_CMD_BLK_SHIFT) + 74
def KEY_CMD_RESTARTSPEECH : Nat := (0 <<< KEY_CMD_BLK_SHIFT) + 75
def KEY_CMD_OFFLINE : Nat := (0 <<< KEY_CMD_BLK_SHIFT) + 76
def KEY_CMD_SHIFT : Nat := (0 <<< KEY_CMD_BLK_SHIFT) + 77
def KEY_CMD_UPPER : Nat := (0 <<< KEY_CMD_BLK_SHIFT) + 78
def KEY_CMD_CONTROL : Nat := (0 <<< KEY_CMD_BLK_SHIFT) + 79
def KEY_CMD_META : Nat := (0 <<< KEY_CMD_BLK_SHIFT) + 80
def KEY_CMD_TIME : Nat := (0 <<< KEY_CMD_BLK_SHIFT) + 81
def KEY_CMD_MENU_PREV_LEVEL : Nat := (0 <<< KEY_CMD_BLK_SHIFT) + 82
def KEY_CMD_ASPK_SEL_LINE : Nat := (0 <<< KEY_CMD_BLK_SHIFT) + 83
def KEY_CMD_ASPK_SEL_CHAR : Nat := (0 <<< KEY_CMD_BLK_SHIFT) + 84
def KEY_CMD_ASPK_INS_CHARS : Nat := (0 <<< KEY_CMD_BLK_SHIFT) + 85
def KEY_CMD_ASPK_DEL_CHARS : Nat := (0 <<< KEY_CMD_BLK_SHIFT) + 86
def KEY_CMD_ASPK_REP_CHARS : Nat := (0 <<< KEY_CMD_BLK_SHIFT) + 87
def KEY_CMD_ASPK_CMP_WORDS : Nat := (0 <<< KEY_CMD_BLK_SHIFT) + 88
def KEY_CMD_SPEAK_CURR_CHAR : Nat := (0 <<< KEY_CMD_BLK_SHIFT) + 89
def KEY_CMD_SPEAK_PREV_CHAR : Nat := (0 <<< KEY_CMD_BLK_SHIFT) + 90
def KEY_CMD_SPEAK_NEXT_CHAR : Nat := (0 <<< KEY_CMD_BLK_SHIFT) + 91
def KEY_CMD_SPEAK_CURR_WORD : Nat := (0 <<< KEY_CMD_BLK_SHIFT) + 92
def KEY_CMD_SPEAK_PREV_WORD : Nat := (0 <<< KEY_CMD_BLK_SHIFT) + 93
def KEY_CMD_SPEAK_NEXT_WORD : Nat := (0 <<< KEY_CMD_BLK_SHIFT) + 94
def KEY_CMD_SPEAK_CURR_LINE : Nat := (0 <<< KEY_CMD_BLK_SHIFT) + 95
def KEY_CMD_SPEAK_PREV_LINE : Nat := (0 <<< KEY_CMD_BLK_SHIFT) + 96
def KEY_CMD_SPEAK_NEXT_LINE : Nat := (0 <<< KEY_CMD_BLK_SHIFT) + 97
def KEY_CMD_SPEAK_FRST_CHAR : Nat := (0 <<< KEY_CMD_BLK_SHIFT) + 98
def KEY_CMD_SPEAK_LAST_CHAR : Nat := (0 <<< KEY_CMD_BLK_SHIFT) + 99
def KEY_CMD_SPEAK_FRST_LINE : Nat := (0 <<< KEY_CMD_BLK_SHIFT) + 100
def KEY_CMD_SPEAK_LAST_LINE : Nat := (0 <<< KEY_CMD_BLK_SHIFT) + 101
def KEY_CMD_DESC_CURR_CHAR : Nat := (0 <<< KEY_CMD_BLK_SHIFT) + 102
def KEY_CMD_SPELL_CURR_WORD : Nat := (0 <<< KEY_CMD_BLK_SHIFT) + 103
def KEY_CMD_ROUTE_CURR_LOCN : Nat := (0 <<< KEY_CMD_BLK_SHIFT) + 104
def KEY_CMD_SPEAK_CURR_LOCN : Nat := (0 <<< KEY_CMD_BLK_SHIFT) + 105
def KEY_CMD_SHOW_CURR_LOCN : Nat := (0 <<< KEY_CMD_BLK_SHIFT) + 106
def KEY_CMD_CLIP_SAVE : Nat := (0 <<< KEY_CMD_BLK_SHIFT) + 107
def KEY_CMD_CLIP_RESTORE : Nat := (0 <<< KEY_CMD_BLK_SHIFT) + 108
def KEY_CMD_BRLUCDOTS : Nat := (0 <<< KEY_CMD_BLK_SHIFT) + 109
def KEY_CMD_BRLKBD : Nat := (0 <<< KEY_CMD_BLK_SHIFT) + 110
def KEY_CMD_UNSTICK : Nat := (0 <<< KEY_CMD_BLK_SHIFT) + 111
def KEY_CMD_ALTGR : Nat := (0 <<< KEY_CMD_BLK_SHIFT) + 112
def KEY_CMD_GUI : Nat := (0 <<< KEY_CMD_BLK_SHIFT) + 113
def KEY_CMD_BRL_STOP : Nat := (0 <<< KEY_CMD_BLK_SHIFT) + 114
def KEY_CMD_BRL_START : Nat := (0 <<< KEY_CMD_BLK_SHIFT) + 115
def KEY_CMD_SPK_STOP : Nat := (0 <<< KEY_CMD_BLK_SHIFT) + 116
def KEY_CMD_SPK_START : Nat := (0 <<< KEY_CMD_BLK_SHIFT) + 117
def KEY_CMD_SCR_STOP : Nat := (0 <<< KEY_CMD_BLK_SHIFT) + 118
def KEY_CMD_SCR_START : Nat := (0 <<< KEY_CMD_BLK_SHIFT) + 119
def KEY_CMD_SELECTVT_PREV : Nat := (0 <<< KEY_CMD_BLK_SHIFT) + 120
def KEY_CMD_SELECTVT_NEXT : Nat := (0 <<< KEY_CMD_BLK_SHIFT) + 121
def KEY_CMD_PRNBWIN : Nat := (0 <<< KEY_CMD_BLK_SHIFT) + 122
def KEY_CMD_NXNBWIN : Nat := (0 <<< KEY_CMD_BLK_SHIFT) + 123
def KEY_CMD_TOUCH_NAV : Nat := (0 <<< KEY_CMD_BLK_SHIFT) + 124
def KEY_CMD_SPEAK_INDENT : Nat := (0 <<< KEY_CMD_BLK_SHIFT) + 125
def KEY_CMD_ASPK_INDENT : Nat := (0 <<< KEY_CMD_BLK_SHIFT) + 126
def KEY_CMD_REFRESH : Nat := (0 <<< KEY_CMD_BLK_SHIFT) + 127
def KEY_CMD_INDICATORS : Nat := (0 <<< KEY_CMD_BLK_SHIFT) + 128
def KEY_CMD_TXTSEL_CLEAR : Nat := (0 <<< KEY_CMD_BLK_SHIFT) + 129
def KEY_CMD_TXTSEL_ALL : Nat := (0 <<< KEY_CMD_BLK_SHIFT) + 130
def KEY_CMD_HOST_COPY : Nat := (0 <<< KEY_CMD_BLK_SHIFT) + 131
def KEY_CMD_HOST_CUT : Nat := (0 <<< KEY_CMD_BLK_SHIFT) + 132
def KEY_CMD_HOST_PASTE : Nat := (0 <<< KEY_CMD_BLK_SHIFT) + 133
def KEY_CMD_GUI_TITLE : Nat := (0 <<< KEY_CMD_BLK_SHIFT) + 134
def KEY_CMD_GUI_BRL_ACTIONS : Nat := (0 <<< KEY_CMD_BLK_SHIFT) + 135
def KEY_CMD_GUI_HOME : Nat := (0 <<< KEY_CMD_BLK_SHIFT) + 136
def KEY_CMD_GUI_BACK : Nat := (0 <<< KEY_CMD_BLK_SHIFT) + 137
def KEY_CMD_GUI_DEV_SETTINGS : Nat := (0 <<< KEY_CMD_BLK_SHIFT) + 138
def KEY_CMD_GUI_DEV_OPTIONS : Nat := (0 <<< KEY_CMD_BLK_SHIFT) + 139
def KEY_CMD_GUI_APP_LIST : Nat := (0 <<< KEY_CMD_BLK_SHIFT) + 140
def KEY_CMD_GUI_APP_MENU : Nat := (0 <<< KEY_CMD_BLK_SHIFT) + 141
def KEY_CMD_GUI_APP_ALERTS : Nat := (0 <<< KEY_CMD_BLK_SHIFT) + 142
def KEY_CMD_GUI_AREA_ACTV : Nat := (0 <<< KEY_CMD_BLK_SHIFT) + 143
def KEY_CMD_GUI_AREA_PREV : Nat := (0 <<< KEY_CMD_BLK_SHIFT) + 144
def KEY_CMD_GUI_AREA_NEXT : Nat := (0 <<< KEY_CMD_BLK_SHIFT) + 145
def KEY_CMD_GUI_ITEM_FRST : Nat := (0 <<< KEY_CMD_BLK_SHIFT) + 146
def KEY_CMD_GUI_ITEM_PREV : Nat := (0 <<< KEY_CMD_BLK_SHIFT) + 147
def KEY_CMD_GUI_ITEM_NEXT : Nat := (0 <<< KEY_CMD_BLK_SHIFT) + 148
def KEY_CMD_GUI_ITEM_LAST : Nat := (0 <<< KEY_CMD_BLK_SHIFT) + 149
def KEY_CMD_SAY_LOWER : Nat := (0 <<< KEY_CMD_BLK_SHIFT) + 150
def KEY_CMD_SAY_HIGHER : Nat := (0 <<< KEY_CMD_BLK_SHIFT) + 151
def KEY_CMD_SAY_ALL : Nat := (0 <<< KEY_CMD_BLK_SHIFT) + 152
def KEY_CMD_CONTRACTED : Nat := (0 <<< KEY_CMD_BLK_SHIFT) + 153
def KEY_CMD_COMPBRL6 : Nat := (0 <<< KEY_CMD_BLK_SHIFT) + 154
def KEY_CMD_PREFRESET : Nat := (0 <<< KEY_CMD_BLK_SHIFT) + 155
def KEY_CMD_ASPK_EMP_LINE : Nat := (0 <<< KEY_CMD_BLK_SHIFT) + 156
def KEY_CMD_SPK_PUNCT_LEVEL : Nat := (0 <<< KEY_CMD_BLK_SHIFT) + 157

def KEY_CMD_ROUTE : Nat := 1 <<< KEY_CMD_BLK_SHIFT
def KEY_CMD_CLIP_NEW : Nat := 2 <<< KEY_CMD_BLK_SHIFT
def KEY_CMD_CUTBEGIN : Nat := 2 <<< KEY_CMD_BLK_SHIFT
def KEY_CMD_CLIP_ADD : Nat := 3 <<< KEY_CMD_BLK_SHIFT
def KEY_CMD_CUTAPPEND : Nat := 3 <<< KEY_CMD_BLK_SHIFT
def KEY_CMD_COPY_RECT : Nat := 4 <<< KEY_CMD_BLK_SHIFT
def KEY_CMD_CUTRECT : Nat := 4 <<< KEY_CMD_BLK_SHIFT
def KEY_CMD_COPY_LINE : Nat := 5 <<< KEY_CMD_BLK_SHIFT
def KEY_CMD_CUTLINE : Nat := 5 <<< KEY_CMD_BLK_SHIFT
def KEY_CMD_SWITCHVT : Nat := 6 <<< KEY_CMD_BLK_SHIFT
def KEY_CMD_PRINDENT : Nat := 7 <<< KEY_CMD_BLK_SHIFT
def KEY_CMD_NXINDENT : Nat := 8 <<< KEY_CMD_BLK_SHIFT
def KEY_CMD_DESCCHAR : Nat := 9 <<< KEY_CMD_BLK_SHIFT
def KEY_CMD_SETLEFT : Nat := 10 <<< KEY_CMD_BLK_SHIFT
def KEY_CMD_SETMARK : Nat := 11 <<< KEY_CMD_BLK_SHIFT
def KEY_CMD_GOTOMARK : Nat := 12 <<< KEY_CMD_BLK_SHIFT
def KEY_CMD_GOTOLINE : Nat := 13 <<< KEY_CMD_BLK_SHIFT
def KEY_CMD_PRDIFCHAR : Nat := 14 <<< KEY_CMD_BLK_SHIFT
def KEY_CMD_NXDIFCHAR : Nat := 15 <<< KEY_CMD_BLK_SHIFT
def KEY_CMD_CLIP_COPY : Nat := 16 <<< KEY_CMD_BLK_SHIFT
def KEY_CMD_COPYCHARS : Nat := 16 <<< KEY_CMD_BLK_SHIFT
def KEY_CMD_CLIP_APPEND : Nat := 17 <<< KEY_CMD_BLK_SHIFT
def KEY_CMD_APNDCHARS : Nat := 17 <<< KEY_CMD_BLK_SHIFT
def KEY_CMD_PASTE_HISTORY : Nat := 18 <<< KEY_CMD_BLK_SHIFT
def KEY_CMD_SET_TEXT_TABLE : Nat := 19 <<< KEY_CMD_BLK_SHIFT
def KEY_CMD_SET_ATTRIBUTES_TABLE : Nat := 20 <<< KEY_CMD_BLK_SHIFT
def KEY_CMD_SET_CONTRACTION_TABLE : Nat := 21 <<< KEY_CMD_BLK_SHIFT
def KEY_CMD_SET_KEYBOARD_TABLE : Nat := 22 <<< KEY_CMD_BLK_SHIFT
def KEY_CMD_SET_LANGUAGE_PROFILE : Nat := 23 <<< KEY_CMD_BLK_SHIFT
def KEY_CMD_ROUTE_LINE : Nat := 24 <<< KEY_CMD_BLK_SHIFT
def KEY_CMD_REFRESH_LINE : Nat := 25 <<< KEY_CMD_BLK_SHIFT
def KEY_CMD_TXTSEL_START : Nat := 26 <<< KEY_CMD_BLK_SHIFT
def KEY_CMD_TXTSEL_SET : Nat := 27 <<< KEY_CMD_BLK_SHIFT
def KEY_CMD_ROUTE_SPEECH : Nat := 28 <<< KEY_CMD_BLK_SHIFT
def KEY_CMD_SELECTVT : Nat := 30 <<< KEY_CMD_BLK_SHIFT
def KEY_CMD_ALERT : Nat := 31 <<< KEY_CMD_BLK_SHIFT
def KEY_CMD_PASSDOTS : Nat := 34 <<< KEY_CMD_BLK_SHIFT
def KEY_CMD_PASSAT : Nat := 35 <<< KEY_CMD_BLK_SHIFT
def KEY_CMD_PASSXT : Nat := 36 <<< KEY_CMD_BLK_SHIFT
def KEY_CMD_PASSPS2 : Nat := 37 <<< KEY_CMD_BLK_SHIFT
def KEY_CMD_CONTEXT : Nat := 38 <<< KEY_CMD_BLK_SHIFT
def KEY_CMD_TOUCH_AT : Nat := 39 <<< KEY_CMD_BLK_SHIFT
def KEY_CMD_MACRO : Nat := 40 <<< KEY_CMD_BLK_SHIFT
def KEY_CMD_HOSTCMD : Nat := 41 <<< KEY_CMD_BLK_SHIFT

def KEY_FLG_TOGGLE_ON : Nat := 0x0100 <<< KEY_FLAGS_SHIFT
def KEY_FLG_TOGGLE_OFF : Nat := 0x0200 <<< KEY_FLAGS_SHIFT
def KEY_FLG_MOTION_ROUTE : Nat := 0x0400 <<< KEY_FLAGS_SHIFT
def KEY_FLG_MOTION_SCALED : Nat := 0x0800 <<< KEY_FLAGS_SHIFT
def KEY_FLG_MOTION_TOLEFT : Nat := 0x1000 <<< KEY_FLAGS_SHIFT
def KEY_FLG_SHIFT : Nat := 0x01 <<< KEY_FLAGS_SHIFT
def KEY_FLG_UPPER : Nat := 0x02 <<< KEY_FLAGS_SHIFT
def KEY_FLG_CONTROL : Nat := 0x04 <<< KEY_FLAGS_SHIFT
def KEY_FLG_META : Nat := 0x08 <<< KEY_FLAGS_SHIFT
def KEY_FLG_ALTGR : Nat := 0x10 <<< KEY_FLAGS_SHIFT
def KEY_FLG_GUI : Nat := 0x20 <<< KEY_FLAGS_SHIFT
def KEY_FLG_ESCAPED : Nat := 0x40 <<< KEY_FLAGS_SHIFT
def KEY_FLG_CAPSLOCK : Nat := 0x80 <<< KEY_FLAGS_SHIFT
def KEY_FLG_KBD_RELEASE : Nat := 0x0100 <<< KEY_FLAGS_SHIFT
def KEY_FLG_KBD_EMUL0 : Nat := 0x0200 <<< KEY_FLAGS_SHIFT
def KEY_FLG_KBD_EMUL1 : Nat := 0x0400 <<< KEY_FLAGS_SHIFT

def KEY_TABLE : List (Nat × String) := [
  (KEY_TYPE_CMD ||| KEY_CMD_NOOP, "NOOP"),
  (KEY_TYPE_CMD ||| KEY_CMD_LNUP, "LNUP"),
  (KEY_TYPE_CMD ||| KEY_CMD_LNDN, "LNDN"),
  (KEY_TYPE_CMD ||| KEY_CMD_WINUP, "WINUP"),
  (KEY_TYPE_CMD ||| KEY_CMD_WINDN, "WINDN"),
  (KEY_TYPE_CMD ||| KEY_CMD_PRDIFLN, "PRDIFLN"),
  (KEY_TYPE_CMD ||| KEY_CMD_NXDIFLN, "NXDIFLN"),
  (KEY_TYPE_CMD ||| KEY_CMD_ATTRUP, "ATTRUP"),
  (KEY_TYPE_CMD ||| KEY_CMD_ATTRDN, "ATTRDN"),
  (KEY_TYPE_CMD ||| KEY_CMD_TOP, "TOP"),
  (KEY_TYPE_CMD ||| KEY_CMD_BOT, "BOT"),
  (KEY_TYPE_CMD ||| KEY_CMD_TOP_LEFT, "TOP_LEFT"),
  (KEY_TYPE_CMD ||| KEY_CMD_BOT_LEFT, "BOT_LEFT"),
  (KEY_TYPE_CMD ||| KEY_CMD_PRPGRPH, "PRPGRPH"),
  (KEY_TYPE_CMD ||| KEY_CMD_NXPGRPH, "NXPGRPH"),
  (KEY_TYPE_CMD ||| KEY_CMD_PRPROMPT, "PRPROMPT"),
  (KEY_TYPE_CMD ||| KEY_CMD_NXPROMPT, "NXPROMPT"),
  (KEY_TYPE_CMD ||| KEY_CMD_PRSEARCH, "PRSEARCH"),
  (KEY_TYPE_CMD ||| KEY_CMD_NXSEARCH, "NXSEARCH"),
  (KEY_TYPE_CMD ||| KEY_CMD_CHRLT, "CHRLT"),
  (KEY_TYPE_CMD ||| KEY_CMD_CHRRT, "CHRRT"),
  (KEY_TYPE_CMD ||| KEY_CMD_HWINLT, "HWINLT"),
  (KEY_TYPE_CMD ||| KEY_CMD_HWINRT, "HWINRT"),
  (KEY_TYPE_CMD ||| KEY_CMD_FWINLT, "FWINLT"),
  (KEY_TYPE_CMD ||| KEY_CMD_FWINRT, "FWINRT"),
  (KEY_TYPE_CMD ||| KEY_CMD_FWINLTSKIP, "FWINLTSKIP"),
  (KEY_TYPE_CMD ||| KEY_CMD_FWINRTSKIP, "FWINRTSKIP"),
  (KEY_TYPE_CMD ||| KEY_CMD_LNBEG, "LNBEG"),
  (KEY_TYPE_CMD ||| KEY_CMD_LNEND, "LNEND"),
  (KEY_TYPE_CMD ||| KEY_CMD_HOME, "HOME"),
  (KEY_TYPE_CMD ||| KEY_CMD_BACK, "BACK"),
  (KEY_TYPE_CMD ||| KEY_CMD_RETURN, "RETURN"),
  (KEY_TYPE_CMD ||| KEY_CMD_FREEZE, "FREEZE"),
  (KEY_TYPE_CMD ||| KEY_CMD_DISPMD, "DISPMD"),
  (KEY_TYPE_CMD ||| KEY_CMD_SIXDOTS, "SIXDOTS"),
  (KEY_TYPE_CMD ||| KEY_CMD_SLIDEWIN, "SLIDEWIN"),
  (KEY_TYPE_CMD ||| KEY_CMD_SKPIDLNS, "SKPIDLNS"),
  (KEY_TYPE_CMD ||| KEY_CMD_SKPBLNKWINS, "SKPBLNKWINS"),
  (KEY_TYPE_CMD ||| KEY_CMD_CSRVIS, "CSRVIS"),
  (KEY_TYPE_CMD ||| KEY_CMD_CSRHIDE, "CSRHIDE"),
  (KEY_TYPE_CMD ||| KEY_CMD_CSRTRK, "CSRTRK"),
  (KEY_TYPE_CMD ||| KEY_CMD_CSRSIZE, "CSRSIZE"),
  (KEY_TYPE_CMD ||| KEY_CMD_CSRBLINK, "CSRBLINK"),
  (KEY_TYPE_CMD ||| KEY_CMD_ATTRVIS, "ATTRVIS"),
  (KEY_TYPE_CMD ||| KEY_CMD_ATTRBLINK, "ATTRBLINK"),
  (KEY_TYPE_CMD ||| KEY_CMD_CAPBLINK, "CAPBLINK"),
  (KEY_TYPE_CMD ||| KEY_CMD_TUNES, "TUNES"),
  (KEY_TYPE_CMD ||| KEY_CMD_AUTOREPEAT, "AUTOREPEAT"),
  (KEY_TYPE_CMD ||| KEY_CMD_AUTOSPEAK, "AUTOSPEAK"),
  (KEY_TYPE_CMD ||| KEY_CMD_HELP, "HELP"),
  (KEY_TYPE_CMD ||| KEY_CMD_INFO, "INFO"),
  (KEY_TYPE_CMD ||| KEY_CMD_LEARN, "LEARN"),
  (KEY_TYPE_CMD ||| KEY_CMD_PREFMENU, "PREFMENU"),
  (KEY_TYPE_CMD ||| KEY_CMD_PREFSAVE, "PREFSAVE"),
  (KEY_TYPE_CMD ||| KEY_CMD_PREFLOAD, "PREFLOAD"),
  (KEY_TYPE_CMD ||| KEY_CMD_MENU_FIRST_ITEM, "MENU_FIRST_ITEM"),
  (KEY_TYPE_CMD ||| KEY_CMD_MENU_LAST_ITEM, "MENU_LAST_ITEM"),
  (KEY_TYPE_CMD ||| KEY_CMD_MENU_PREV_ITEM, "MENU_PREV_ITEM"),
  (KEY_TYPE_CMD ||| KEY_CMD_MENU_NEXT_ITEM, "MENU_NEXT_ITEM"),
  (KEY_TYPE_CMD ||| KEY_CMD_MENU_PREV_SETTING, "MENU_PREV_SETTING"),
  (KEY_TYPE_CMD ||| KEY_CMD_MENU_NEXT_SETTING, "MENU_NEXT_SETTING"),
  (KEY_TYPE_CMD ||| KEY_CMD_MUTE, "MUTE"),
  (KEY_TYPE_CMD ||| KEY_CMD_SPKHOME, "SPKHOME"),
  (KEY_TYPE_CMD ||| KEY_CMD_SAY_LINE, "SAY_LINE"),
  (KEY_TYPE_CMD ||| KEY_CMD_SAY_ABOVE, "SAY_ABOVE"),
  (KEY_TYPE_CMD ||| KEY_CMD_SAY_BELOW, "SAY_BELOW"),
  (KEY_TYPE_CMD ||| KEY_CMD_SAY_SLOWER, "SAY_SLOWER"),
  (KEY_TYPE_CMD ||| KEY_CMD_SAY_FASTER, "SAY_FASTER"),
  (KEY_TYPE_CMD ||| KEY_CMD_SAY_SOFTER, "SAY_SOFTER"),
  (KEY_TYPE_CMD ||| KEY_CMD_SAY_LOUDER, "SAY_LOUDER"),
  (KEY_TYPE_CMD ||| KEY_CMD_SWITCHVT_PREV, "SWITCHVT_PREV"),
  (KEY_TYPE_CMD ||| KEY_CMD_SWITCHVT_NEXT, "SWITCHVT_NEXT"),
  (KEY_TYPE_CMD ||| KEY_CMD_CSRJMP_VERT, "CSRJMP_VERT"),
  (KEY_TYPE_CMD ||| KEY_CMD_PASTE, "PASTE"),
  (KEY_TYPE_CMD ||| KEY_CMD_RESTARTBRL, "RESTARTBRL"),
  (KEY_TYPE_CMD ||| KEY_CMD_RESTARTSPEECH, "RESTARTSPEECH"),
  (KEY_TYPE_CMD ||| KEY_CMD_OFFLINE, "OFFLINE"),
  (KEY_TYPE_CMD ||| KEY_CMD_SHIFT, "SHIFT"),
  (KEY_TYPE_CMD ||| KEY_CMD_UPPER, "UPPER"),
  (KEY_TYPE_CMD ||| KEY_CMD_CONTROL, "CONTROL"),
  (KEY_TYPE_CMD ||| KEY_CMD_META, "META"),
  (KEY_TYPE_CMD ||| KEY_CMD_TIME, "TIME"),
  (KEY_TYPE_CMD ||| KEY_CMD_MENU_PREV_LEVEL, "MENU_PREV_LEVEL"),
  (KEY_TYPE_CMD ||| KEY_CMD_ASPK_SEL_LINE, "ASPK_SEL_LINE"),
  (KEY_TYPE_CMD ||| KEY_CMD_ASPK_SEL_CHAR, "ASPK_SEL_CHAR"),
  (KEY_TYPE_CMD ||| KEY_CMD_ASPK_INS_CHARS, "ASPK_INS_CHARS"),
  (KEY_TYPE_CMD ||| KEY_CMD_ASPK_DEL_CHARS, "ASPK_DEL_CHARS"),
  (KEY_TYPE_CMD ||| KEY_CMD_ASPK_REP_CHARS, "ASPK_REP_CHARS"),
  (KEY_TYPE_CMD ||| KEY_CMD_ASPK_CMP_WORDS, "ASPK_CMP_WORDS"),
  (KEY_TYPE_CMD ||| KEY_CMD_SPEAK_CURR_CHAR, "SPEAK_CURR_CHAR"),
  (KEY_TYPE_CMD ||| KEY_CMD_SPEAK_PREV_CHAR, "SPEAK_PREV_CHAR"),
  (KEY_TYPE_CMD ||| KEY_CMD_SPEAK_NEXT_CHAR, "SPEAK_NEXT_CHAR"),
  (KEY_TYPE_CMD ||| KEY_CMD_SPEAK_CURR_WORD, "SPEAK_CURR_WORD"),
  (KEY_TYPE_CMD ||| KEY_CMD_SPEAK_PREV_WORD, "SPEAK_PREV_WORD"),
  (KEY_TYPE_CMD ||| KEY_CMD_SPEAK_NEXT_WORD, "SPEAK_NEXT_WORD"),
  (KEY_TYPE_CMD ||| KEY_CMD_SPEAK_CURR_LINE, "SPEAK_CURR_LINE"),
  (KEY_TYPE_CMD ||| KEY_CMD_SPEAK_PREV_LINE, "SPEAK_PREV_LINE"),
  (KEY_TYPE_CMD ||| KEY_CMD_SPEAK_NEXT_LINE, "SPEAK_NEXT_LINE"),
  (KEY_TYPE_CMD ||| KEY_CMD_SPEAK_FRST_CHAR, "SPEAK_FRST_CHAR"),
  (KEY_TYPE_CMD ||| KEY_CMD_SPEAK_LAST_CHAR, "SPEAK_LAST_CHAR"),
  (KEY_TYPE_CMD ||| KEY_CMD_SPEAK_FRST_LINE, "SPEAK_FRST_LINE"),
  (KEY_TYPE_CMD ||| KEY_CMD_SPEAK_LAST_LINE, "SPEAK_LAST_LINE"),
  (KEY_TYPE_CMD ||| KEY_CMD_DESC_CURR_CHAR, "DESC_CURR_CHAR"),
  (KEY_TYPE_CMD ||| KEY_CMD_SPELL_CURR_WORD, "SPELL_CURR_WORD"),
  (KEY_TYPE_CMD ||| KEY_CMD_ROUTE_CURR_LOCN, "ROUTE_CURR_LOCN"),
  (KEY_TYPE_CMD ||| KEY_CMD_SPEAK_CURR_LOCN, "SPEAK_CURR_LOCN"),
  (KEY_TYPE_CMD ||| KEY_CMD_SHOW_CURR_LOCN, "SHOW_CURR_LOCN"),
  (KEY_TYPE_CMD ||| KEY_CMD_CLIP_SAVE, "CLIP_SAVE"),
  (KEY_TYPE_CMD ||| KEY_CMD_CLIP_RESTORE, "CLIP_RESTORE"),
  (KEY_TYPE_CMD ||| KEY_CMD_BRLUCDOTS, "BRLUCDOTS"),
  (KEY_TYPE_CMD ||| KEY_CMD_BRLKBD, "BRLKBD"),
  (KEY_TYPE_CMD ||| KEY_CMD_UNSTICK, "UNSTICK"),
  (KEY_TYPE_CMD ||| KEY_CMD_ALTGR, "ALTGR"),
  (KEY_TYPE_CMD ||| KEY_CMD_GUI, "GUI"),
  (KEY_TYPE_CMD ||| KEY_CMD_BRL_STOP, "BRL_STOP"),
  (KEY_TYPE_CMD ||| KEY_CMD_BRL_START, "BRL_START"),
  (KEY_TYPE_CMD ||| KEY_CMD_SPK_STOP, "SPK_STOP"),
  (KEY_TYPE_CMD ||| KEY_CMD_SPK_START, "SPK_START"),
  (KEY_TYPE_CMD ||| KEY_CMD_SCR_STOP, "SCR_STOP"),
  (KEY_TYPE_CMD ||| KEY_CMD_SCR_START, "SCR_START"),
  (KEY_TYPE_CMD ||| KEY_CMD_SELECTVT_PREV, "SELECTVT_PREV"),
  (KEY_TYPE_CMD ||| KEY_CMD_SELECTVT_NEXT, "SELECTVT_NEXT"),
  (KEY_TYPE_CMD ||| KEY_CMD_PRNBWIN, "PRNBWIN"),
  (KEY_TYPE_CMD ||| KEY_CMD_NXNBWIN, "NXNBWIN"),
  (KEY_TYPE_CMD ||| KEY_CMD_TOUCH_NAV, "TOUCH_NAV"),
  (KEY_TYPE_CMD ||| KEY_CMD_SPEAK_INDENT, "SPEAK_INDENT"),
  (KEY_TYPE_CMD ||| KEY_CMD_ASPK_INDENT, "ASPK_INDENT"),
  (KEY_TYPE_CMD ||| KEY_CMD_REFRESH, "REFRESH"),
  (KEY_TYPE_CMD ||| KEY_CMD_INDICATORS, "INDICATORS"),
  (KEY_TYPE_CMD ||| KEY_CMD_TXTSEL_CLEAR, "TXTSEL_CLEAR"),
  (KEY_TYPE_CMD ||| KEY_CMD_TXTSEL_ALL, "TXTSEL_ALL"),
  (KEY_TYPE_CMD ||| KEY_CMD_HOST_COPY, "HOST_COPY"),
  (KEY_TYPE_CMD ||| KEY_CMD_HOST_CUT, "HOST_CUT"),
  (KEY_TYPE_CMD ||| KEY_CMD_HOST_PASTE, "HOST_PASTE"),
  (KEY_TYPE_CMD ||| KEY_CMD_GUI_TITLE, "GUI_TITLE"),
  (KEY_TYPE_CMD ||| KEY_CMD_GUI_BRL_ACTIONS, "GUI_BRL_ACTIONS"),
  (KEY_TYPE_CMD ||| KEY_CMD_GUI_HOME, "GUI_HOME"),
  (KEY_TYPE_CMD ||| KEY_CMD_GUI_BACK, "GUI_BACK"),
  (KEY_TYPE_CMD ||| KEY_CMD_GUI_DEV_SETTINGS, "GUI_DEV_SETTINGS"),
  (KEY_TYPE_CMD ||| KEY_CMD_GUI_DEV_OPTIONS, "GUI_DEV_OPTIONS"),
  (KEY_TYPE_CMD ||| KEY_CMD_GUI_APP_LIST, "GUI_APP_LIST"),
  (KEY_TYPE_CMD ||| KEY_CMD_GUI_APP_MENU, "GUI_APP_MENU"),
  (KEY_TYPE_CMD ||| KEY_CMD_GUI_APP_ALERTS, "GUI_APP_ALERTS"),
  (KEY_TYPE_CMD ||| KEY_CMD_GUI_AREA_ACTV, "GUI_AREA_ACTV"),
  (KEY_TYPE_CMD ||| KEY_CMD_GUI_AREA_PREV, "GUI_AREA_PREV"),
  (KEY_TYPE_CMD ||| KEY_CMD_GUI_AREA_NEXT, "GUI_AREA_NEXT"),
  (KEY_TYPE_CMD ||| KEY_CMD_GUI_ITEM_FRST, "GUI_ITEM_FRST"),
  (KEY_TYPE_CMD ||| KEY_CMD_GUI_ITEM_PREV, "GUI_ITEM_PREV"),
  (KEY_TYPE_CMD ||| KEY_CMD_GUI_ITEM_NEXT, "GUI_ITEM_NEXT"),
  (KEY_TYPE_CMD ||| KEY_CMD_GUI_ITEM_LAST, "GUI_ITEM_LAST"),
  (KEY_TYPE_CMD ||| KEY_CMD_SAY_LOWER, "SAY_LOWER"),
  (KEY_TYPE_CMD ||| KEY_CMD_SAY_HIGHER, "SAY_HIGHER"),
  (KEY_TYPE_CMD ||| KEY_CMD_SAY_ALL, "SAY_ALL"),
  (KEY_TYPE_CMD ||| KEY_CMD_CONTRACTED, "CONTRACTED"),
  (KEY_TYPE_CMD ||| KEY_CMD_COMPBRL6, "COMPBRL6"),
  (KEY_TYPE_CMD ||| KEY_CMD_PREFRESET, "PREFRESET"),
  (KEY_TYPE_CMD ||| KEY_CMD_ASPK_EMP_LINE, "ASPK_EMP_LINE"),
  (KEY_TYPE_CMD ||| KEY_CMD_SPK_PUNCT_LEVEL, "SPK_PUNCT_LEVEL"),
  (KEY_TYPE_CMD ||| KEY_CMD_ROUTE, "ROUTE"),
  (KEY_TYPE_CMD ||| KEY_CMD_CLIP_NEW, "CLIP_NEW"),
  (KEY_TYPE_CMD ||| KEY_CMD_CUTBEGIN, "CUTBEGIN"),
  (KEY_TYPE_CMD ||| KEY_CMD_CLIP_ADD, "CLIP_ADD"),
  (KEY_TYPE_CMD ||| KEY_CMD_CUTAPPEND, "CUTAPPEND"),
  (KEY_TYPE_CMD ||| KEY_CMD_COPY_RECT, "COPY_RECT"),
  (KEY_TYPE_CMD ||| KEY_CMD_CUTRECT, "CUTRECT"),
  (KEY_TYPE_CMD ||| KEY_CMD_COPY_LINE, "COPY_LINE"),
  (KEY_TYPE_CMD ||| KEY_CMD_CUTLINE, "CUTLINE"),
  (KEY_TYPE_CMD ||| KEY_CMD_SWITCHVT, "SWITCHVT"),
  (KEY_TYPE_CMD ||| KEY_CMD_PRINDENT, "PRINDENT"),
  (KEY_TYPE_CMD ||| KEY_CMD_NXINDENT, "NXINDENT"),
  (KEY_TYPE_CMD ||| KEY_CMD_DESCCHAR, "DESCCHAR"),
  (KEY_TYPE_CMD ||| KEY_CMD_SETLEFT, "SETLEFT"),
  (KEY_TYPE_CMD ||| KEY_CMD_SETMARK, "SETMARK"),
  (KEY_TYPE_CMD ||| KEY_CMD_GOTOMARK, "GOTOMARK"),
  (KEY_TYPE_CMD ||| KEY_CMD_GOTOLINE, "GOTOLINE"),
  (KEY_TYPE_CMD ||| KEY_CMD_PRDIFCHAR, "PRDIFCHAR"),
  (KEY_TYPE_CMD ||| KEY_CMD_NXDIFCHAR, "NXDIFCHAR"),
  (KEY_TYPE_CMD ||| KEY_CMD_CLIP_COPY, "CLIP_COPY"),
  (KEY_TYPE_CMD ||| KEY_CMD_CLIP_APPEND, "CLIP_APPEND"),
  (KEY_TYPE_CMD ||| KEY_CMD_PASTE_HISTORY, "PASTE_HISTORY"),
  (KEY_TYPE_CMD ||| KEY_CMD_SET_TEXT_TABLE, "SET_TEXT_TABLE"),
  (KEY_TYPE_CMD ||| KEY_CMD_SET_ATTRIBUTES_TABLE, "SET_ATTRIBUTES_TABLE"),
  (KEY_TYPE_CMD ||| KEY_CMD_SET_CONTRACTION_TABLE, "SET_CONTRACTION_TABLE"),
  (KEY_TYPE_CMD ||| KEY_CMD_SET_KEYBOARD_TABLE, "SET_KEYBOARD_TABLE"),
  (KEY_TYPE_CMD ||| KEY_CMD_SET_LANGUAGE_PROFILE, "SET_LANGUAGE_PROFILE"),
  (KEY_TYPE_CMD ||| KEY_CMD_ROUTE_LINE, "ROUTE_LINE"),
  (KEY_TYPE_CMD ||| KEY_CMD_REFRESH_LINE, "REFRESH_LINE"),
  (KEY_TYPE_CMD ||| KEY_CMD_TXTSEL_START, "TXTSEL_START"),
  (KEY_TYPE_CMD ||| KEY_CMD_TXTSEL_SET, "TXTSEL_SET"),
  (KEY_TYPE_CMD ||| KEY_CMD_ROUTE_SPEECH, "ROUTE_SPEECH"),
  (KEY_TYPE_CMD ||| KEY_CMD_SELECTVT, "SELECTVT"),
  (KEY_TYPE_CMD ||| KEY_CMD_ALERT, "ALERT"),
  (KEY_TYPE_CMD ||| KEY_CMD_PASSDOTS, "PASSDOTS"),
  (KEY_TYPE_CMD ||| KEY_CMD_PASSAT, "PASSAT"),
  (KEY_TYPE_CMD ||| KEY_CMD_PASSXT, "PASSXT"),
  (KEY_TYPE_CMD ||| KEY_CMD_PASSPS2, "PASSPS2"),
  (KEY_TYPE_CMD ||| KEY_CMD_CONTEXT, "CONTEXT"),
  (KEY_TYPE_CMD ||| KEY_CMD_TOUCH_AT, "TOUCH_AT"),
  (KEY_TYPE_CMD ||| KEY_CMD_MACRO, "MACRO"),
  (KEY_TYPE_CMD ||| KEY_CMD_HOSTCMD, "HOSTCMD"),
  (KEY_TYPE_SYM ||| KEY_SYM_LINEFEED, "LINEFEED"),
  (KEY_TYPE_SYM ||| KEY_SYM_TAB, "TAB"),
  (KEY_TYPE_SYM ||| KEY_SYM_BACKSPACE, "BACKSPACE"),
  (KEY_TYPE_SYM ||| KEY_SYM_ESCAPE, "ESCAPE"),
  (KEY_TYPE_SYM ||| KEY_SYM_LEFT, "LEFT"),
  (KEY_TYPE_SYM ||| KEY_SYM_RIGHT, "RIGHT"),
  (KEY_TYPE_SYM ||| KEY_SYM_UP, "UP"),
  (KEY_TYPE_SYM ||| KEY_SYM_DOWN, "DOWN"),
  (KEY_TYPE_SYM ||| KEY_SYM_PAGE_UP, "PAGE_UP"),
  (KEY_TYPE_SYM ||| KEY_SYM_PAGE_DOWN, "PAGE_DOWN"),
  (KEY_TYPE_SYM ||| KEY_SYM_HOME, "HOME"),
  (KEY_TYPE_SYM ||| KEY_SYM_END, "END"),
  (KEY_TYPE_SYM ||| KEY_SYM_INSERT, "INSERT"),
  (KEY_TYPE_SYM ||| KEY_SYM_DELETE, "DELETE"),
  (KEY_SYM_FUNCTION + 0, "F1"),
  (KEY_SYM_FUNCTION + 1, "F2"),
  (KEY_SYM_FUNCTION + 2, "F3"),
  (KEY_SYM_FUNCTION + 3, "F4"),
  (KEY_SYM_FUNCTION + 4, "F5"),
  (KEY_SYM_FUNCTION + 5, "F6"),
  (KEY_SYM_FUNCTION + 6, "F7"),
  (KEY_SYM_FUNCTION + 7, "F8"),
  (KEY_SYM_FUNCTION + 8, "F9"),
  (KEY_SYM_FUNCTION + 9, "F10"),
  (KEY_SYM_FUNCTION + 10, "F11"),
  (KEY_SYM_FUNCTION + 11, "F12"),
  (KEY_SYM_FUNCTION + 12, "F13"),
  (KEY_SYM_FUNCTION + 13, "F14"),
  (KEY_SYM_FUNCTION + 14, "F15"),
  (KEY_SYM_FUNCTION + 15, "F16"),
  (KEY_SYM_FUNCTION + 16, "F17"),
  (KEY_SYM_FUNCTION + 17, "F18"),
  (KEY_SYM_FUNCTION + 18, "F19"),
  (KEY_SYM_FUNCTION + 19, "F20"),
  (KEY_SYM_FUNCTION + 20, "F21"),
  (KEY_SYM_FUNCTION + 21, "F22"),
  (KEY_SYM_FUNCTION + 22, "F23"),
  (KEY_SYM_FUNCTION + 23, "F24"),
  (KEY_SYM_FUNCTION + 24, "F25"),
  (KEY_SYM_FUNCTION + 25, "F26"),
  (KEY_SYM_FUNCTION + 26, "F27"),
  (KEY_SYM_FUNCTION + 27, "F28"),
  (KEY_SYM_FUNCTION + 28, "F29"),
  (KEY_SYM_FUNCTION + 29, "F30"),
  (KEY_SYM_FUNCTION + 30, "F31"),
  (KEY_SYM_FUNCTION + 31, "F32"),
  (KEY_SYM_FUNCTION + 32, "F33"),
  (KEY_SYM_FUNCTION + 33, "F34"),
  (KEY_SYM_FUNCTION + 34, "F35")
  ]

/-! ## `describeKeyCode` (`keycodes.py`)

```python
def describeKeyCode (keyCode):
    ekc = expandKeyCode(keyCode)
    if ekc is None:
        raise ValueError("Invalid parameter: unable to determine argument width.")
    argument = ekc["argument"]
    codeWithoutArgument = ekc["type"] | ekc["command"]
    codeWithArgument = codeWithoutArgument | argument
    entry = KEY_TABLE.get(codeWithArgument, None)
    if entry is not None:
        argument = 0
    else:
        entry = KEY_TABLE.get(codeWithoutArgument, None)
    if entry is None:
        if ekc["type"]==KEY_TYPE_SYM and keyCode & KEY_SYM_UNICODE != 0:
            entry = "UNICODE"
            argument = keyCode & (KEY_SYM_UNICODE-1)
        else:
            entry = "Unknown"
            argument = 0
    ...
```

`dictGet` models `dict.get` on the table built from the dict literal:
the fold makes the last binding for a key win, exactly as in Python.
`none` from `describeKeyCode` models the `ValueError` raised when the
key code has an invalid type field.  `checkFlags` models the sequence of
`check_flag` calls appending matching flag names in order.
-/

def dictGet (tbl : List (Nat × String)) (k : Nat) : Option String :=
  tbl.foldl (fun acc p => if p.1 = k then some p.2 else acc) none

structure DKC where
  keyCode : Nat
  command : String
  argument : Nat
  values : EKC
  type : String
  flags : List String
deriving DecidableEq

def checkFlags (keyCode : Nat) (l : List (Nat × String)) : List String :=
  l.filterMap (fun p => if keyCode &&& p.1 ≠ 0 then some p.2 else none)

set_option maxRecDepth 4000

def describeKeyCode (keyCode : Nat) : Option DKC :=
  match expandKeyCode keyCode with
  | none => none
  | some ekc =>
    let codeWithoutArgument := ekc.type ||| ekc.command
    let codeWithArgument := codeWithoutArgument ||| ekc.argument
    let step1 : Option String × Nat :=
      match dictGet KEY_TABLE codeWithArgument with
      | some e => (some e, 0)
      | none => (dictGet KEY_TABLE codeWithoutArgument, ekc.argument)
    let step2 : String × Nat :=
      match step1.1 with
      | some e => (e, step1.2)
      | none =>
        if ekc.type = KEY_TYPE_SYM ∧ keyCode &&& KEY_SYM_UNICODE ≠ 0 then
          ("UNICODE", keyCode &&& (KEY_SYM_UNICODE - 1))
        else ("Unknown", 0)
    let typeName := if ekc.type = KEY_TYPE_SYM then "SYM"
      else if ekc.type = KEY_TYPE_CMD then "CMD" else "UNKNOWN"
    let baseFlags := checkFlags keyCode
      [(KEY_FLG_SHIFT, "SHIFT"), (KEY_FLG_UPPER, "UPPER"), (KEY_FLG_CONTROL, "CONTROL"),
       (KEY_FLG_META, "META"), (KEY_FLG_ALTGR, "ALTGR"), (KEY_FLG_GUI, "GUI")]
    let flags :=
      if ekc.type = KEY_TYPE_CMD then
        let blk := ekc.command &&& KEY_CMD_BLK_MASK
        if blk = KEY_CMD_PASSDOTS then baseFlags
        else if blk = KEY_CMD_PASSXT ∨ blk = KEY_CMD_PASSAT ∨ blk = KEY_CMD_PASSPS2 then
          baseFlags ++ checkFlags keyCode
            [(KEY_FLG_KBD_RELEASE, "KBD_RELEASE"), (KEY_FLG_KBD_EMUL0, "KBD_EMUL0"),
             (KEY_FLG_KBD_EMUL1, "KBD_EMUL1")]
        else
          baseFlags ++ checkFlags keyCode
            [(KEY_FLG_TOGGLE_ON, "TOGGLE_ON"), (KEY_FLG_TOGGLE_OFF, "TOGGLE_OFF"),
             (KEY_FLG_MOTION_ROUTE, "MOTION_ROUTE"), (KEY_FLG_MOTION_SCALED, "MOTION_SCALED"),
             (KEY_FLG_MOTION_TOLEFT, "MOTION_TOLEFT")]
      else baseFlags
    some { keyCode := keyCode, command := step2.1, argument := step2.2,
           values := ekc, type := typeName, flags := flags }

/-- **C9.** `describeKeyCode` resolves names by first looking up
`type|command|argument` (matching argument-free commands, the reported
argument then being 0), then `type|command` (matching argument-carrying
commands, keeping the argument); if neither matches and the type is SYM
with the Unicode bit set, the command is named `UNICODE` with
`argument = keyCode &&& 0x00FFFFFF`, else `Unknown`.  In particular, for
key code `0x0000000020010008` it yields type `CMD`, command `ROUTE`,
argument 8 and an empty flags list. -/
theorem c9_describe_resolution :
    (∀ k ekc, expandKeyCode k = some ekc →
      ((∀ s, dictGet KEY_TABLE (ekc.type ||| ekc.command ||| ekc.argument) = some s →
          ∃ d, describeKeyCode k = some d ∧ d.command = s ∧ d.argument = 0) ∧
       (dictGet KEY_TABLE (ekc.type ||| ekc.command ||| ekc.argument) = none →
        ∀ s, dictGet KEY_TABLE (ekc.type ||| ekc.command) = some s →
          ∃ d, describeKeyCode k = some d ∧ d.command = s ∧ d.argument = ekc.argument) ∧
       (dictGet KEY_TABLE (ekc.type ||| ekc.command ||| ekc.argument) = none →
        dictGet KEY_TABLE (ekc.type ||| ekc.command) = none →
        ekc.type = KEY_TYPE_SYM → k &&& KEY_SYM_UNICODE ≠ 0 →
          ∃ d, describeKeyCode k = some d ∧
            d.command = "UNICODE" ∧ d.argument = k &&& 0x00FFFFFF) ∧
       (dictGet KEY_TABLE (ekc.type ||| ekc.command ||| ekc.argument) = none →
        dictGet KEY_TABLE (ekc.type ||| ekc.command) = none →
        ¬(ekc.type = KEY_TYPE_SYM ∧ k &&& KEY_SYM_UNICODE ≠ 0) →
          ∃ d, describeKeyCode k = some d ∧ d.command = "Unknown" ∧ d.argument = 0))) ∧
    describeKeyCode 0x0000000020010008 = some ⟨0x20010008, "ROUTE", 8,
      ⟨KEY_TYPE_CMD, KEY_CMD_ROUTE, 8, 0⟩, "CMD", []⟩ := by
  refine ⟨fun k ekc hek => ⟨?_, ?_, ?_, ?_⟩, by decide⟩
  · intro s h1
    simp only [describeKeyCode, hek, h1]
    exact ⟨_, rfl, rfl, rfl⟩
  · intro h1 s h2
    simp only [describeKeyCode, hek, h1, h2]
    exact ⟨_, rfl, rfl, rfl⟩
  · intro h1 h2 h3 h4
    simp only [describeKeyCode, hek, h1, h2, if_pos (And.intro h3 h4)]
    exact ⟨_, rfl, rfl, rfl⟩
  · intro h1 h2 h3
    simp only [describeKeyCode, hek, h1, h2, if_neg h3]
    exact ⟨_, rfl, rfl, rfl⟩

/-- Witness for C9: the resolution property applied at the concrete key
code `0x0000000020010008` (`CMD`/`ROUTE` with argument 8): the
with-argument lookup misses, the without-argument lookup hits `ROUTE`,
and the argument 8 is kept. -/
theorem c9_describe_resolution_witness :
    ∃ d, describeKeyCode 0x0000000020010008 = some d ∧
      d.command = "ROUTE" ∧ d.argument = (⟨KEY_TYPE_CMD, KEY_CMD_ROUTE, 8, 0⟩ : EKC).argument :=
  ((c9_describe_resolution.1 0x0000000020010008 ⟨KEY_TYPE_CMD, KEY_CMD_ROUTE, 8, 0⟩
      (by decide)).2.1 (by decide) "ROUTE" (by decide))

/-! ## Exceptions (`pybrlapi/exceptions.py`) and the `Blocker` gate
(`pybrlapi/blocker.py`)

`PyErr` models the exception values the library creates.
`BrlAPIPacketError code message` stands for the result of
`BrlAPIError.from_packet(packet)`, whose message embeds the packet's
`repr` — for an `ErrorPacket`/`ExceptionPacket` that repr carries the
protocol error code's name and its human-readable description.

```python
class Blocker:
    def __init__ (self, source="<generic>", timeout=-1, wait_at_exit=False):
        self.lock     = l = Lock()
        self.source       = source
        self.timeout      = timeout
        ...
    def wait (self):
        self.lock.acquire(False)
        timedout = not self.lock.acquire(True, self.timeout)
        try:
            self.lock.release()
        except:
            pass
        e = self.exception
        if e:
            self.exception = None
            raise e
        if timedout:
            raise TimedOut(self.source, self.timeout)
    def done (self):
        try:
            self.lock.release()
        except:
            pass
    def throw (self, e):
        if self.exception:
            self.exception = MultipleExceptions(self.exception, e)
        else:
            self.exception = e
        try:
            self.lock.release()
        except:
            pass
```

`GateState.locked` is the state of `self.lock`; `Blocker_begin` models
`begin()`/`prepare()` (`__enter__` acquiring the lock), `Blocker_done`
models `done()` and `Blocker_throw` models `throw(e)`.

`Blocker_wait g` gives the outcome of a `wait()` call judged against the
gate state `g` at the end of the scenario: if the lock was released by
`done()`/`throw()` the wait is interrupted and raises the recorded
exception if there is one; if nothing ever releases the lock, CPython's
`Lock.acquire(True, timeout)` returns `False` after `timeout` seconds
when `timeout` is non-negative (so `wait` raises
`TimedOut(source, timeout)`), and blocks *indefinitely* when `timeout`
is `-1` — the default set in `Blocker.__init__`.
-/

inductive PyErr where
  | BrlAPIError (msg : String)
  | BrlAPIPacketError (code : Nat) (message : String)
  | TimedOut (source : String) (timeout : Int)
  | AttributeError (msg : String)
  | TypeError (msg : String)
  | MultipleExceptions (first second : PyErr)
deriving DecidableEq

structure GateState where
  source : String
  timeout : Int
  locked : Bool
  exception : Option PyErr
deriving DecidableEq

def Blocker_new (source : String) : GateState :=
  { source := source, timeout := -1, locked := false, exception := none }

def Blocker_begin (g : GateState) : GateState :=
  { g with locked := true }

def Blocker_done (g : GateState) : GateState :=
  { g with locked := false }

def Blocker_throw (g : GateState) (e : PyErr) : GateState :=
  { g with locked := false,
           exception := some (match g.exception with
             | some e0 => .MultipleExceptions e0 e
             | none => e) }

inductive WaitOutcome where
  | returns
  | raises (e : PyErr)
  | blocksForever
deriving DecidableEq

def Blocker_wait (g : GateState) : WaitOutcome :=
  if g.locked = false then
    match g.exception with
    | some e => .raises e
    | none => .returns
  else if g.timeout < 0 then .blocksForever
  else
    match g.exception with
    | some e => .raises e
    | none => .raises (.TimedOut g.source g.timeout)

/-! `Client.connect` creates its three gates with the default timeout:

```python
self.process      = Blocker("Process")
self.receive      = Blocker("Receive")
self.keywait      = Blocker("Keywait")
self.process.begin()
```
-/

def clientProcessGate : GateState := Blocker_begin (Blocker_new "Process")
def clientReceiveGate : GateState := Blocker_new "Receive"
def clientKeywaitGate : GateState := Blocker_new "Keywait"

/-- **C6 counterexample.** The claim asserts every gate the Client
creates has a *finite* default deadline, so a `wait()` with no
completion and no injected error terminates by raising a typed timeout
error.  False: `Client.connect` builds all three gates with `Blocker`'s
default `timeout=-1`, and `Lock.acquire(True, -1)` blocks indefinitely,
so such a `wait()` never terminates (and in particular never raises
`TimedOut`). -/
theorem c6_no_finite_default_deadline :
    Blocker_wait (Blocker_begin clientProcessGate) = .blocksForever ∧
    Blocker_wait (Blocker_begin clientReceiveGate) = .blocksForever ∧
    Blocker_wait (Blocker_begin clientKeywaitGate) = .blocksForever := by decide

/-- **C6 (amended).** A `Blocker` honors a timeout only when a finite
(non-negative) timeout is configured: a `wait()` on a pending gate whose
completion never arrives and with no injected error then raises
`TimedOut` annotated with the gate's name and the timeout.  The gates
`Client.connect` creates keep the default `timeout = -1`, for which the
same `wait()` blocks indefinitely (`c6_no_finite_default_deadline`). -/
theorem c6_wait_timeout_when_finite (source : String) (timeout : Int)
    (h : 0 ≤ timeout) :
    Blocker_wait { source := source, timeout := timeout, locked := true, exception := none } =
      .raises (.TimedOut source timeout) := by
  unfold Blocker_wait
  rw [if_neg (by simp), if_neg (by simp only []; omega)]

/-- Witness for the amended C6: a gate named `Receive` with a 30-second
timeout times out with `TimedOut("Receive", 30)`. -/
theorem c6_wait_timeout_when_finite_witness :
    Blocker_wait { source := "Receive", timeout := 30, locked := true, exception := none } =
      .raises (.TimedOut "Receive" 30) :=
  c6_wait_timeout_when_finite "Receive" 30 (by decide)

/-! ## Parsed packets (`pybrlapi/protocol.py`)

`Packet.from_bytes` dispatches on the type code to a subclass; the
inductive below models the resulting typed records together with the
`is*` recognizer methods.  Note that `ExceptionPacket` overrides *both*
`isError` and `isException` to be positive, so `isError` answers `true`
for `ERROR` and `EXCEPTION` packets alike.
-/

inductive Packet where
  | version (protocol : Nat)
  | serverAuth (method : Nat)
  | ack
  | error (code : Nat) (message : String)
  | exceptionPkt (code : Nat) (cause : Nat) (message : String)
  | infoDriver (info : String)
  | infoModel (info : String)
  | infoSize (cols rows : Nat)
  | key (code : Nat)
  | other (ptype : Nat)
deriving DecidableEq

def Packet.isError : Packet → Bool
  | .error _ _ => true
  | .exceptionPkt _ _ _ => true
  | _ => false

def Packet.isVersion : Packet → Bool
  | .version _ => true
  | _ => false

def Packet.isAuth : Packet → Bool
  | .serverAuth _ => true
  | _ => false

def Packet.isACK : Packet → Bool
  | .ack => true
  | _ => false

def Packet.isInfo : Packet → Bool
  | .infoDriver _ => true
  | .infoModel _ => true
  | .infoSize _ _ => true
  | _ => false

def Packet.isKey : Packet → Bool
  | .key _ => true
  | _ => false

def Packet.errCode : Packet → Nat
  | .error c _ => c
  | .exceptionPkt c _ _ => c
  | _ => 0

def Packet.errMsg : Packet → String
  | .error _ m => m
  | .exceptionPkt _ _ m => m
  | _ => ""

/-- `BrlAPIError.from_packet(packet)`: a `BrlAPIError` whose message
embeds the packet's repr, i.e. (for error-carrying packets) the protocol
error code and its description. -/
def BrlAPIError_from_packet (p : Packet) : PyErr :=
  .BrlAPIPacketError p.errCode p.errMsg

/-! ## Client normal-mode state and `Client.process_data`

```python
def process_data (self):
    b = self.process_buffer()
    if b is None:
        return
    try:
        packet = Packet.from_bytes(b)
    except Exception as e:
        self.exception = e = BrlAPIError("Unable to deserialize packet: "+str(e))
        self.error_callback(e)
        return
    if packet.isInfo():
        if packet.type==PACKET_GETDRIVERNAME:
            self.driver = packet.info
        elif packet.type==PACKET_GETMODELID:
            self.model = packet.info
        elif packet.type==PACKET_GETDISPLAYSIZE:
            self.displaySize = packet.info
    elif packet.isKey():
        if self.key_callback:
            self.key_callback(packet)
        else:
            self.packetqueue.append(packet)
            self.keywait.done()
    elif packet.isError():
        self.exception = e = BrlAPIError.from_packet(packet)
        self.error_callback(e)
        # An error could arrive during the key wait, so do not wait for it any more
        self.keywait.done()
    if not packet.isKey():
        self.receive.done()
    if self.in_buffer:
        self.process_func()
```

`process_data` below models the dispatch on one successfully parsed
packet.  `packetqueue` holds queued key codes in arrival order
(`deque.append` appends on the right, i.e. at the end of the list);
`delivered` records invocations of the key callback and `reported`
records invocations of the error callback, both in call order.
-/

def pyStartsWith (s p : String) : Bool := s.data.take p.data.length == p.data

structure ClientState where
  mode : String
  driver : String
  model : String
  displaySize : Nat × Nat
  packetqueue : List Nat
  exception : Option PyErr
  keywait : GateState
  receive : GateState
  delivered : List Nat
  reported : List PyErr
deriving DecidableEq

def process_data (hasKeyCallback : Bool) (p : Packet) (s : ClientState) : ClientState :=
  let s1 :=
    if p.isInfo then
      match p with
      | .infoDriver d => { s with driver := d }
      | .infoModel m => { s with model := m }
      | .infoSize c r => { s with displaySize := (c, r) }
      | _ => s
    else if p.isKey then
      match p with
      | .key code =>
        if hasKeyCallback then { s with delivered := s.delivered ++ [code] }
        else { s with packetqueue := s.packetqueue ++ [code],
                      keywait := Blocker_done s.keywait }
      | _ => s
    else if p.isError then
      let e := BrlAPIError_from_packet p
      { s with exception := some e,
               reported := s.reported ++ [e],
               keywait := Blocker_done s.keywait }
    else s
  if p.isKey then s1 else { s1 with receive := Blocker_done s1.receive }

/-! ## `Client.readKey`

```python
def readKey (self, blocking=True):
    if not self.mode.startswith("TTY"):
        self.packetqueue.clear()
        raise BrlAPIError("Not permitted in %s mode" % self.mode)
    if blocking and not self.packetqueue:
        self.keywait.wait()
    try:
        return self.packetqueue.pop()
    except:
        pass
```

`deque.pop()` removes and returns the *rightmost* (most recently
appended) element; on an empty deque it raises `IndexError`, which the
bare `except:` swallows so the call returns `None` (`ReadKeyResult.empty`).
`ReadKeyResult.waits` marks the path where a blocking call with an empty
queue suspends on the `keywait` gate; the pop it performs after being
woken is not modelled further.
-/

inductive ReadKeyResult where
  | modeError (msg : String)
  | key (code : Nat)
  | empty
  | waits
deriving DecidableEq

def readKey (blocking : Bool) (s : ClientState) : ReadKeyResult × ClientState :=
  if ¬ pyStartsWith s.mode "TTY" then
    (.modeError ("Not permitted in " ++ s.mode ++ " mode"), { s with packetqueue := [] })
  else if blocking ∧ s.packetqueue = [] then
    (.waits, s)
  else
    match s.packetqueue.getLast? with
    | some code => (.key code, { s with packetqueue := s.packetqueue.dropLast })
    | none => (.empty, s)

/-- A freshly connected client sitting in TTY mode with empty queue and
both waitable gates armed, as after `connect()` + `enterTTYMode(1)`. -/
def ttyClientState : ClientState :=
  { mode := "TTY:1", driver := "NoBraille", model := "", displaySize := (0, 0),
    packetqueue := [], exception := none,
    keywait := Blocker_begin clientKeywaitGate,
    receive := Blocker_begin clientReceiveGate,
    delivered := [], reported := [] }

/-- **C2.** The claim says the pending-key queue is FIFO: successive
`readKey()` calls return queued KEY packets in arrival order, each call
popping the *oldest* queued key.  The code appends arriving keys on the
right of the deque and `readKey` pops with `deque.pop()`, which removes
the *rightmost*, i.e. the *newest*, element — LIFO.  Failing input: two
KEY packets with codes 1 then 2 arrive with no callback registered; the
queue then holds `[1, 2]` in arrival order, but the first `readKey()`
returns key 2, not key 1. -/
theorem c2_readKey_pops_newest_not_oldest :
    (process_data false (.key 2) (process_data false (.key 1) ttyClientState)).packetqueue
      = [1, 2] ∧
    (readKey true (process_data false (.key 2)
      (process_data false (.key 1) ttyClientState))).1 = .key 2 ∧
    (readKey true (process_data false (.key 2)
      (process_data false (.key 1) ttyClientState))).1 ≠ .key 1 := by decide

/-- **C10.** Calling `readKey()` in any mode that is not a TTY mode
raises the mode error and, as a side effect, first unconditionally
empties the pending-key queue (`self.packetqueue.clear()`), so every key
packet queued up to that point is discarded: the state a later
`readKey()` call would pop from no longer contains any of them. -/
theorem c10_readKey_mode_error_clears_queue (blocking : Bool) (s : ClientState)
    (h : pyStartsWith s.mode "TTY" = false) :
    (readKey blocking s).1 = .modeError ("Not permitted in " ++ s.mode ++ " mode") ∧
    (readKey blocking s).2.packetqueue = [] := by
  simp [readKey, h]

/-- Witness for C10: in `normal` mode with keys 1 and 2 queued, a
blocking `readKey()` raises the mode error and empties the queue. -/
theorem c10_readKey_mode_error_clears_queue_witness :
    (readKey true { ttyClientState with mode := "normal", packetqueue := [1, 2] }).1
      = .modeError ("Not permitted in " ++ "normal" ++ " mode") ∧
    (readKey true { ttyClientState with mode := "normal", packetqueue := [1, 2] }).2.packetqueue
      = [] :=
  c10_readKey_mode_error_clears_queue true
    { ttyClientState with mode := "normal", packetqueue := [1, 2] } (by decide)

/-- **C3 counterexample.** The claim says that on an `ERROR`/`EXCEPTION`
packet in normal operation every pending gate is *failed* with a typed
error carrying the code and description, so a blocked caller observes it
as a raised exception.  In fact `process_data` calls `keywait.done()`
and `receive.done()` — completion, not failure: concretely, after an
`ERROR` packet with code 2 arrives, both gates are released with no
recorded exception and a caller blocked in `wait()` on either gate
resumes *normally* instead of seeing the error raised. -/
theorem c3_error_not_raised_to_blocked_caller :
    Blocker_wait (process_data false
      (.error 2 "A connection is already running in this tty") ttyClientState).receive
        = .returns ∧
    Blocker_wait (process_data false
      (.error 2 "A connection is already running in this tty") ttyClientState).keywait
        = .returns ∧
    (process_data false
      (.error 2 "A connection is already running in this tty") ttyClientState).receive.exception
        = none ∧
    (process_data false
      (.error 2 "A connection is already running in this tty") ttyClientState).keywait.exception
        = none := by decide

/-- **C3 (amended).** For every `ERROR` or `EXCEPTION` packet received
in normal operation, the typed error carrying the protocol error code
and description is recorded in `Client.exception` and delivered to the
error callback, and both pending gates (receive and key-wait) are
*released via `done()`* — not failed: no exception is injected into
either gate, so a caller blocked on either gate resumes normally rather
than observing the error as a raised exception. -/
theorem c3_error_releases_gates_without_failing (hasKeyCallback : Bool) (p : Packet)
    (s : ClientState) (hp : p.isError = true) :
    process_data hasKeyCallback p s = { s with
      exception := some (BrlAPIError_from_packet p),
      reported := s.reported ++ [BrlAPIError_from_packet p],
      keywait := Blocker_done s.keywait,
      receive := Blocker_done s.receive } ∧
    (s.keywait.exception = none → Blocker_wait (Blocker_done s.keywait) = .returns) ∧
    (s.receive.exception = none → Blocker_wait (Blocker_done s.receive) = .returns) := by
  refine ⟨?_, ?_, ?_⟩
  · cases p <;> simp_all [process_data, Packet.isError, Packet.isInfo, Packet.isKey]
  · intro h
    simp [Blocker_wait, Blocker_done, h]
  · intro h
    simp [Blocker_wait, Blocker_done, h]

/-- Witness for the amended C3 at a concrete `EXCEPTION` packet (code 7,
"Invalid size", offending type `PACKET_WRITE`) processed in the TTY
client state. -/
theorem c3_error_releases_gates_without_failing_witness :
    process_data false (.exceptionPkt 7 119 "Invalid size") ttyClientState
      = { ttyClientState with
          exception := some (BrlAPIError_from_packet (.exceptionPkt 7 119 "Invalid size")),
          reported := ttyClientState.reported ++
            [BrlAPIError_from_packet (.exceptionPkt 7 119 "Invalid size")],
          keywait := Blocker_done ttyClientState.keywait,
          receive := Blocker_done ttyClientState.receive } ∧
    (ttyClientState.keywait.exception = none →
      Blocker_wait (Blocker_done ttyClientState.keywait) = .returns) ∧
    (ttyClientState.receive.exception = none →
      Blocker_wait (Blocker_done ttyClientState.receive) = .returns) :=
  c3_error_releases_gates_without_failing false (.exceptionPkt 7 119 "Invalid size")
    ttyClientState (by decide)

/-! ## `Client.writeDots`

```python
def writeDots (self, content):
    if not self.mode.startswith("TTY"):
        raise BrlAPIError("Not permitted in %s mode" % self.mode)
    if self.displaySize==(0, 0):
        self.getDisplaySize()
    size = self.displaySize[0]*self.displaySize[1]
    if size==0:
        # Driver: NoBraille
        return
    flags = WF_REGION|WF_TEXT|WF_CURSOR|WF_ATTR_OR
    fmt = "!IIII%is%isI" % (size, size)
    payload = pack(fmt, flags, 1, size, size, size*b" ", content, 0)
    self.send(WritePacket(payload=payload))
```

The `struct` format `"!IIII%is%isI"` lays the payload out as four
big-endian 32-bit words (flags, region begin, region size, text
length), `size` text bytes, `size` attribute bytes and a final 32-bit
word (cursor); `"ns"` pads with NUL or truncates its argument to
exactly `n` bytes (`padTrunc`).  The sent frame is
`WritePacket.to_bytes()`: the 4-byte payload length, the 4-byte type
`PACKET_WRITE`, then the payload.  `WriteOutcome.queriesServer` marks
the path where the cached display size is `(0, 0)` and the code first
performs a `getDisplaySize` round-trip (a network interaction not
modelled here); `WriteOutcome.noop` is the silent return for a zero
display size.
-/

inductive WriteOutcome where
  | modeError (msg : String)
  | queriesServer
  | noop
  | sent (frames : List (List Nat))
deriving DecidableEq

def writeDots (s : ClientState) (content : List Nat) : WriteOutcome :=
  if ¬ pyStartsWith s.mode "TTY" then
    .modeError ("Not permitted in " ++ s.mode ++ " mode")
  else if s.displaySize = (0, 0) then .queriesServer
  else
    let size := s.displaySize.1 * s.displaySize.2
    if size = 0 then .noop
    else
      let flags := WF_REGION ||| WF_TEXT ||| WF_CURSOR ||| WF_ATTR_OR
      let payload := be32 flags ++ be32 1 ++ be32 size ++ be32 size ++
        List.replicate size 32 ++ padTrunc size content ++ be32 0
      .sent [be32 payload.length ++ be32 PACKET_WRITE ++ payload]

/-- **C8.** For a known display size of `c` columns and `r` rows with
`n = c*r > 0`, `writeDots content` in TTY mode sends exactly one WRITE
packet whose payload is, in order: the 32-bit flags word
`WF_REGION|WF_TEXT|WF_CURSOR|WF_ATTR_OR`, 32-bit region begin 1, 32-bit
region size `n`, the 32-bit text length `n` followed by `n` space bytes
(0x20), `n` attr-or bytes equal to `content`, and the 32-bit cursor 0. -/
theorem c8_writeDots_single_write_packet (s : ClientState) (content : List Nat)
    (hmode : pyStartsWith s.mode "TTY" = true)
    (hsize : 0 < s.displaySize.1 * s.displaySize.2)
    (hlen : content.length = s.displaySize.1 * s.displaySize.2) :
    writeDots s content = .sent [
      be32 (20 + 2 * (s.displaySize.1 * s.displaySize.2)) ++ be32 PACKET_WRITE ++
      (be32 (WF_REGION ||| WF_TEXT ||| WF_CURSOR ||| WF_ATTR_OR) ++ be32 1 ++
       be32 (s.displaySize.1 * s.displaySize.2) ++ be32 (s.displaySize.1 * s.displaySize.2) ++
       List.replicate (s.displaySize.1 * s.displaySize.2) 32 ++ content ++ be32 0)] := by
  have hD : ¬ s.displaySize = (0, 0) := by
    intro h
    rw [h] at hsize
    simp at hsize
  have hpad : padTrunc (s.displaySize.1 * s.displaySize.2) content = content := by
    rw [← hlen]
    simp [padTrunc]
  have hplen : (be32 (WF_REGION ||| WF_TEXT ||| WF_CURSOR ||| WF_ATTR_OR) ++ be32 1 ++
      be32 (s.displaySize.1 * s.displaySize.2) ++ be32 (s.displaySize.1 * s.displaySize.2) ++
      List.replicate (s.displaySize.1 * s.displaySize.2) 32 ++ content ++ be32 0).length
        = 20 + 2 * (s.displaySize.1 * s.displaySize.2) := by
    simp [be32, hlen]
    ring
  unfold writeDots
  rw [if_neg (by simp [hmode]), if_neg hD, if_neg (by omega)]
  rw [hpad]
  simp only [hplen]

/-- Witness for C8: a 2×1 display in TTY mode, `content = [0xFF, 0xFF]`;
the single sent frame is checked byte for byte. -/
theorem c8_writeDots_single_write_packet_witness :
    writeDots { ttyClientState with displaySize := (2, 1) } [0xFF, 0xFF] = .sent [
      be32 (20 + 2 * 2) ++ be32 PACKET_WRITE ++
      (be32 (WF_REGION ||| WF_TEXT ||| WF_CURSOR ||| WF_ATTR_OR) ++ be32 1 ++
       be32 2 ++ be32 2 ++ List.replicate 2 32 ++ [0xFF, 0xFF] ++ be32 0)] :=
  c8_writeDots_single_write_packet { ttyClientState with displaySize := (2, 1) }
    [0xFF, 0xFF] (by decide) (by decide) (by decide)

/-! ## `Client.process_handshake`

```python
def process_handshake (self):
    b = self.process_buffer()
    if b is None:
        return
    try:
        packet = Packet.from_bytes(b)
    except Exception as e:
        e = BrlAPIError("Unable to interpret a packet during the handshake: "+str(e))
        self.error_callback(e)
        self.process.throw(e)
        return
    if packet.isError():
        self.close()
        e = BrlAPIError.from_packet(packet)
        self.error_callback(e)
        self.throw(e)
        return
    if packet.isVersion():
        self.step = 1
        if packet.protocol<PROTOCOL_VERSION:
            e = BrlAPIError("brltty ... declared %i, which is too low for pybrlapi.")
            self.error_callback(e)
            self.process.throw(e)
            return
        self.send(VersionPacket())
    elif packet.isAuth():
        self.step = 2
        if packet.method==AUTH_KEY:
            k = self.auth_callback(AUTH_KEY)
            if k is None:
                return
            k = k.encode() if isinstance(k, str) else k
            p = ClientAuthPacket(method=AUTH_KEY, payload=k)
            self.send(p)
        elif packet.method==AUTH_NONE:
            self.step = 3
            self.auth_callback(AUTH_NONE)
            self.mode         = "normal"
            self.process_func = self.process_data
            self.process.done()
        else:
            self.close()
            e = BrlAPIError("This port of BRLAPI supports only AUTH_NONE and AUTH_KEY ...")
            self.error_callback(e)
            self.process.throw(e)
            return
    elif packet.isACK():
        self.step = 3
        self.mode         = "normal"
        self.process_func = self.process_data
        self.process.done()
    else:
        self.close()
        e = BrlAPIError("Unexpected packet arrived during handshake.")
        self.error_callback(e)
        self.process.throw()
        return
    if self.in_buffer:
        self.process_func()
```

The model below is the dispatch on one parsed packet.  Two lines of
this function do not do what their siblings do:

* In the `isError` branch the code calls `self.throw(e)` on the
  *Client* itself.  `Client` defines no method `throw` (the `Blocker`
  gates do — every other abort path here says `self.process.throw(e)`),
  and neither does the `asyncore.dispatcher` hierarchy it inherits
  from, whose `__getattr__` falls through to the wrapped socket object
  and raises `AttributeError`.  So the branch raises `AttributeError`
  in the reader thread and the process gate is never failed; this is
  modelled by `raised := some (.AttributeError "throw")` with the gate
  left untouched.
* In the final `else` branch, `self.process.throw()` is called without
  its required argument, raising `TypeError` before the gate is
  touched; modelled likewise.

`sent` records the type codes of packets sent back to the server.
`authKey` abstracts the `auth_callback(AUTH_KEY)` result (`none` models
the callback returning `None`).
-/

structure HsState where
  step : Nat
  mode : String
  closed : Bool
  processGate : GateState
  sent : List Nat
  reported : List PyErr
  raised : Option PyErr
deriving DecidableEq

def process_handshake_packet (authKey : Option String) (p : Packet) (s : HsState) :
    HsState :=
  if p.isError then
    { s with closed := true,
             reported := s.reported ++ [BrlAPIError_from_packet p],
             raised := some (.AttributeError "throw") }
  else if p.isVersion then
    match p with
    | .version protocol =>
      let s := { s with step := 1 }
      if protocol < PROTOCOL_VERSION then
        let e := PyErr.BrlAPIError
          "brltty on the other side does not speak protocol 8. It declared a version which is too low for pybrlapi."
        { s with reported := s.reported ++ [e],
                 processGate := Blocker_throw s.processGate e }
      else { s with sent := s.sent ++ [PACKET_VERSION] }
    | _ => s
  else if p.isAuth then
    match p with
    | .serverAuth method =>
      let s := { s with step := 2 }
      if method = AUTH_KEY then
        match authKey with
        | none => s
        | some _ => { s with sent := s.sent ++ [PACKET_AUTH] }
      else if method = AUTH_NONE then
        { s with step := 3, mode := "normal",
                 processGate := Blocker_done s.processGate }
      else
        let e := PyErr.BrlAPIError
          "This port of BRLAPI supports only AUTH_NONE and AUTH_KEY authentication methods"
        { s with closed := true, reported := s.reported ++ [e],
                 processGate := Blocker_throw s.processGate e }
    | _ => s
  else if p.isACK then
    { s with step := 3, mode := "normal",
             processGate := Blocker_done s.processGate }
  else
    { s with closed := true,
             reported := s.reported ++ [PyErr.BrlAPIError "Unexpected packet arrived during handshake."],
             raised := some (.TypeError "throw() missing 1 required positional argument") }

/-- The handshake state right after `connect()` armed the process gate
and started waiting on it (`self.process.begin(); ...;
self.process.wait()`). -/
def connectHsState : HsState :=
  { step := 0, mode := "authorization", closed := false,
    processGate := clientProcessGate, sent := [], reported := [], raised := none }

/-- **C1.** The claim says an `ERROR` packet received during the
handshake aborts the connection *and surfaces the error to the caller
blocked in `connect()`*, which should raise an error derived from the
packet rather than return normally or block forever.  The abort happens
(socket closed, error reported to the error callback), but the branch
then calls `self.throw(e)` — a slip for `self.process.throw(e)`;
`Client` has no `throw` attribute — so `AttributeError` is raised in
the reader thread, the process gate is never failed, and the caller
blocked in `self.process.wait()` (a gate with the infinite default
timeout) blocks forever and never sees an error derived from the
packet.  Evaluated here at a concrete `ERROR` packet with code 17
("Authentication failed"). -/
theorem c1_handshake_error_never_reaches_connect :
    process_handshake_packet none (.error 17 "Authentication failed") connectHsState
      = { connectHsState with
          closed := true,
          reported := [PyErr.BrlAPIPacketError 17 "Authentication failed"],
          raised := some (.AttributeError "throw") } ∧
    (process_handshake_packet none (.error 17 "Authentication failed")
        connectHsState).processGate = connectHsState.processGate ∧
    Blocker_wait (process_handshake_packet none (.error 17 "Authentication failed")
        connectHsState).processGate = .blocksForever := by decide
